import Mathlib

/-!
Shallow embedding of the CBOR predicate-failure decoder from
`src/docs/error_parser.rs` (the Conway-era ledger error parser), together
with theorems checking the natural-language specification against it.

The CBOR byte reader itself is the external `ciborium` crate; everything
from `Term::from_value` onwards is this repository's code and is embedded
here at the `Term` level.  Rust `u64` values are modelled as `Nat` (every
value the code manufactures fits in 64 bits), `i128`-backed CBOR integers
as `Int`, `Vec<u8>` as `List Nat`, and `f64` payloads by their 64-bit
pattern (no decode logic ever inspects a float).
-/

namespace ErrorParser

/-- Minimal CBOR term representation keeping ordering information for
arrays and key/value pairs for maps (mirrors `enum Term`). -/
inductive Term where
  | Integer (i : Int)
  | Bytes (b : List Nat)
  | Text (s : String)
  | Bool (b : Bool)
  | Float (bits : Nat)
  | Null
  | Array (items : List Term)
  | Map (entries : List (Term × Term))
  | Tagged (tag : Nat) (t : Term)

/-- Mirror of `Term::as_unsigned`: `u64::try_from` on the underlying CBOR
integer succeeds exactly for values in `[0, 2^64)`. -/
def Term.as_unsigned : Term → Option Nat
  | .Integer i => if 0 ≤ i ∧ i < 2 ^ 64 then some i.toNat else none
  | _ => none

/-- Representation of a CBOR-encoded sum value (mirrors `struct TaggedSum`). -/
structure TaggedSum where
  tag : Nat
  fields : List Term

/-- Mirror of `TaggedSum::from_term`.  A non-empty array whose head is an
unsigned integer yields `(head, rest)`; a semantic tag wrapping an array
yields `(tag, elements)`; everything else is not a sum. -/
def TaggedSum.from_term : Term → Option TaggedSum
  | .Array (tagTerm :: rest) =>
    match tagTerm.as_unsigned with
    | some tag => some ⟨tag, rest⟩
    | none => none
  | .Tagged tag boxed =>
    match boxed with
    | .Array elements => some ⟨tag, elements⟩
    | _ => none
  | _ => none

/-- Error returned while decoding (mirrors `enum ParseError`; the CBOR
transport error payload is abstracted to its message). -/
inductive ParseError where
  | Cbor (message : String)
  | Malformed (context : String)

/-- Tree structure that mirrors the nesting of predicate failures
(mirrors `enum TaggedTree`). -/
inductive TaggedTree where
  | Sum (sum : TaggedSum) (children : List TaggedTree)
  | Leaf (t : Term)

theorem sizeOf_lt_of_from_term {t : Term} {sum : TaggedSum}
    (h : TaggedSum.from_term t = some sum) {f : Term} (hf : f ∈ sum.fields) :
    sizeOf f < sizeOf t := by
  cases t with
  | Array items =>
    cases items with
    | nil => simp [TaggedSum.from_term] at h
    | cons a rest =>
      have hfs : sum.fields = rest := by
        simp only [TaggedSum.from_term] at h
        cases hu : a.as_unsigned with
        | none => rw [hu] at h; cases h
        | some tag => rw [hu] at h; cases h; rfl
      rw [hfs] at hf
      have h1 : sizeOf f < sizeOf rest := List.sizeOf_lt_of_mem hf
      simp only [Term.Array.sizeOf_spec, List.cons.sizeOf_spec]
      omega
  | Tagged tag boxed =>
    cases boxed with
    | Array elements =>
      have hfs : sum.fields = elements := by
        simp only [TaggedSum.from_term] at h
        cases h; rfl
      rw [hfs] at hf
      have h1 : sizeOf f < sizeOf elements := List.sizeOf_lt_of_mem hf
      simp only [Term.Tagged.sizeOf_spec, Term.Array.sizeOf_spec]
      omega
    | Integer i => simp [TaggedSum.from_term] at h
    | Bytes b => simp [TaggedSum.from_term] at h
    | Text s => simp [TaggedSum.from_term] at h
    | Bool b => simp [TaggedSum.from_term] at h
    | Float bits => simp [TaggedSum.from_term] at h
    | Null => simp [TaggedSum.from_term] at h
    | Map entries => simp [TaggedSum.from_term] at h
    | Tagged tag2 t2 => simp [TaggedSum.from_term] at h
  | Integer i => simp [TaggedSum.from_term] at h
  | Bytes b => simp [TaggedSum.from_term] at h
  | Text s => simp [TaggedSum.from_term] at h
  | Bool b => simp [TaggedSum.from_term] at h
  | Float bits => simp [TaggedSum.from_term] at h
  | Null => simp [TaggedSum.from_term] at h
  | Map entries => simp [TaggedSum.from_term] at h

/-- Mirror of `TaggedTree::from_term`: recognize a sum, recursively build
the children from its fields, otherwise wrap the term in a leaf. -/
def TaggedTree.from_term (t : Term) : TaggedTree :=
  match h : TaggedSum.from_term t with
  | some sum =>
    TaggedTree.Sum sum (sum.fields.attach.map fun f => TaggedTree.from_term f.1)
  | none => TaggedTree.Leaf t
termination_by sizeOf t
decreasing_by exact sizeOf_lt_of_from_term h f.2

/-- Mirror of `decode_predicate_failure` after the CBOR byte stage: fail
with `Malformed` if the root does not recognize as a tagged sum, otherwise
build the tree. -/
def decode_predicate_failure (root : Term) : Except ParseError TaggedTree :=
  match TaggedSum.from_term root with
  | none => .error (.Malformed "expected a tagged sum")
  | some _ => .ok (TaggedTree.from_term root)

/-- Mirror of `enum ConwayLedgerPredicateFailureTag`. -/
inductive ConwayLedgerPredicateFailureTag where
  | ConwayUtxowFailure
  | ConwayCertsFailure
  | ConwayGovFailure
  | ConwayWdrlNotDelegatedToDRep
  | ConwayTreasuryValueMismatch
  | ConwayTxRefScriptsSizeTooBig
  | ConwayMempoolFailure
  | ConwayWithdrawalsMissingAccounts
  | ConwayIncompleteWithdrawals
deriving DecidableEq

/-- Mirror of `TryFrom<u64> for ConwayLedgerPredicateFailureTag`
(`Option` models `Result<Self, ()>`). -/
def ConwayLedgerPredicateFailureTag.tryFrom :
    Nat → Option ConwayLedgerPredicateFailureTag
  | 1 => some .ConwayUtxowFailure
  | 2 => some .ConwayCertsFailure
  | 3 => some .ConwayGovFailure
  | 4 => some .ConwayWdrlNotDelegatedToDRep
  | 5 => some .ConwayTreasuryValueMismatch
  | 6 => some .ConwayTxRefScriptsSizeTooBig
  | 7 => some .ConwayMempoolFailure
  | 8 => some .ConwayWithdrawalsMissingAccounts
  | 9 => some .ConwayIncompleteWithdrawals
  | _ => none

/-- Mirror of `enum ConwayUtxowPredicateFailureTag`. -/
inductive ConwayUtxowPredicateFailureTag where
  | UtxoFailure
  | InvalidWitnessesUTXOW
  | MissingVKeyWitnessesUTXOW
  | MissingScriptWitnessesUTXOW
  | ScriptWitnessNotValidatingUTXOW
  | MissingTxBodyMetadataHash
  | MissingTxMetadata
  | ConflictingMetadataHash
  | InvalidMetadata
  | ExtraneousScriptWitnessesUTXOW
  | MissingRedeemers
  | MissingRequiredDatums
  | NotAllowedSupplementalDatums
  | PPViewHashesDontMatch
  | UnspendableUTxONoDatumHash
  | ExtraRedeemers
  | MalformedScriptWitnesses
  | MalformedReferenceScripts
  | ScriptIntegrityHashMismatch
deriving DecidableEq

/-- Mirror of `TryFrom<u64> for ConwayUtxowPredicateFailureTag`. -/
def ConwayUtxowPredicateFailureTag.tryFrom :
    Nat → Option ConwayUtxowPredicateFailureTag
  | 0 => some .UtxoFailure
  | 1 => some .InvalidWitnessesUTXOW
  | 2 => some .MissingVKeyWitnessesUTXOW
  | 3 => some .MissingScriptWitnessesUTXOW
  | 4 => some .ScriptWitnessNotValidatingUTXOW
  | 5 => some .MissingTxBodyMetadataHash
  | 6 => some .MissingTxMetadata
  | 7 => some .ConflictingMetadataHash
  | 8 => some .InvalidMetadata
  | 9 => some .ExtraneousScriptWitnessesUTXOW
  | 10 => some .MissingRedeemers
  | 11 => some .MissingRequiredDatums
  | 12 => some .NotAllowedSupplementalDatums
  | 13 => some .PPViewHashesDontMatch
  | 14 => some .UnspendableUTxONoDatumHash
  | 15 => some .ExtraRedeemers
  | 16 => some .MalformedScriptWitnesses
  | 17 => some .MalformedReferenceScripts
  | 18 => some .ScriptIntegrityHashMismatch
  | _ => none

/-- Mirror of `enum ConwayUtxoPredicateFailureTag`. -/
inductive ConwayUtxoPredicateFailureTag where
  | UtxosFailure
  | BadInputsUTxO
  | OutsideValidityIntervalUTxO
  | MaxTxSizeUTxO
  | InputSetEmptyUTxO
  | FeeTooSmallUTxO
  | ValueNotConservedUTxO
  | WrongNetwork
  | WrongNetworkWithdrawal
  | OutputTooSmallUTxO
  | OutputBootAddrAttrsTooBig
  | OutputTooBigUTxO
  | InsufficientCollateral
  | ScriptsNotPaidUTxO
  | ExUnitsTooBigUTxO
  | CollateralContainsNonADA
  | WrongNetworkInTxBody
  | OutsideForecast
  | TooManyCollateralInputs
  | NoCollateralInputs
  | IncorrectTotalCollateralField
  | BabbageOutputTooSmallUTxO
  | BabbageNonDisjointRefInputs
deriving DecidableEq

/-- Mirror of `TryFrom<u64> for ConwayUtxoPredicateFailureTag`. -/
def ConwayUtxoPredicateFailureTag.tryFrom :
    Nat → Option ConwayUtxoPredicateFailureTag
  | 0 => some .UtxosFailure
  | 1 => some .BadInputsUTxO
  | 2 => some .OutsideValidityIntervalUTxO
  | 3 => some .MaxTxSizeUTxO
  | 4 => some .InputSetEmptyUTxO
  | 5 => some .FeeTooSmallUTxO
  | 6 => some .ValueNotConservedUTxO
  | 7 => some .WrongNetwork
  | 8 => some .WrongNetworkWithdrawal
  | 9 => some .OutputTooSmallUTxO
  | 10 => some .OutputBootAddrAttrsTooBig
  | 11 => some .OutputTooBigUTxO
  | 12 => some .InsufficientCollateral
  | 13 => some .ScriptsNotPaidUTxO
  | 14 => some .ExUnitsTooBigUTxO
  | 15 => some .CollateralContainsNonADA
  | 16 => some .WrongNetworkInTxBody
  | 17 => some .OutsideForecast
  | 18 => some .TooManyCollateralInputs
  | 19 => some .NoCollateralInputs
  | 20 => some .IncorrectTotalCollateralField
  | 21 => some .BabbageOutputTooSmallUTxO
  | 22 => some .BabbageNonDisjointRefInputs
  | _ => none

/-- Mirror of `enum ConwayUtxosPredicateFailureTag`. -/
inductive ConwayUtxosPredicateFailureTag where
  | ValidationTagMismatch
  | CollectErrors
deriving DecidableEq

/-- Mirror of `TryFrom<u64> for ConwayUtxosPredicateFailureTag`. -/
def ConwayUtxosPredicateFailureTag.tryFrom :
    Nat → Option ConwayUtxosPredicateFailureTag
  | 0 => some .ValidationTagMismatch
  | 1 => some .CollectErrors
  | _ => none

/-- Mirror of `enum ConwayCertsPredicateFailureTag`. -/
inductive ConwayCertsPredicateFailureTag where
  | WithdrawalsNotInRewardsCERTS
  | CertFailure
deriving DecidableEq

/-- Mirror of `TryFrom<u64> for ConwayCertsPredicateFailureTag`. -/
def ConwayCertsPredicateFailureTag.tryFrom :
    Nat → Option ConwayCertsPredicateFailureTag
  | 0 => some .WithdrawalsNotInRewardsCERTS
  | 1 => some .CertFailure
  | _ => none

/-- Mirror of `enum ConwayCertPredicateFailureTag`. -/
inductive ConwayCertPredicateFailureTag where
  | DelegFailure
  | PoolFailure
  | GovCertFailure
deriving DecidableEq

/-- Mirror of `TryFrom<u64> for ConwayCertPredicateFailureTag`. -/
def ConwayCertPredicateFailureTag.tryFrom :
    Nat → Option ConwayCertPredicateFailureTag
  | 1 => some .DelegFailure
  | 2 => some .PoolFailure
  | 3 => some .GovCertFailure
  | _ => none

/-- Mirror of `enum ConwayDelegPredicateFailureTag`. -/
inductive ConwayDelegPredicateFailureTag where
  | IncorrectDepositDELEG
  | StakeKeyRegisteredDELEG
  | StakeKeyNotRegisteredDELEG
  | StakeKeyHasNonZeroRewardAccountBalanceDELEG
  | DelegateeDRepNotRegisteredDELEG
  | DelegateeStakePoolNotRegisteredDELEG
  | DepositIncorrectDELEG
  | RefundIncorrectDELEG
deriving DecidableEq

/-- Mirror of `TryFrom<u64> for ConwayDelegPredicateFailureTag`. -/
def ConwayDelegPredicateFailureTag.tryFrom :
    Nat → Option ConwayDelegPredicateFailureTag
  | 1 => some .IncorrectDepositDELEG
  | 2 => some .StakeKeyRegisteredDELEG
  | 3 => some .StakeKeyNotRegisteredDELEG
  | 4 => some .StakeKeyHasNonZeroRewardAccountBalanceDELEG
  | 5 => some .DelegateeDRepNotRegisteredDELEG
  | 6 => some .DelegateeStakePoolNotRegisteredDELEG
  | 7 => some .DepositIncorrectDELEG
  | 8 => some .RefundIncorrectDELEG
  | _ => none

/-- Mirror of `enum ConwayGovCertPredicateFailureTag`. -/
inductive ConwayGovCertPredicateFailureTag where
  | ConwayDRepAlreadyRegistered
  | ConwayDRepNotRegistered
  | ConwayDRepIncorrectDeposit
  | ConwayCommitteeHasPreviouslyResigned
  | ConwayDRepIncorrectRefund
  | ConwayCommitteeIsUnknown
deriving DecidableEq

/-- Mirror of `TryFrom<u64> for ConwayGovCertPredicateFailureTag`. -/
def ConwayGovCertPredicateFailureTag.tryFrom :
    Nat → Option ConwayGovCertPredicateFailureTag
  | 0 => some .ConwayDRepAlreadyRegistered
  | 1 => some .ConwayDRepNotRegistered
  | 2 => some .ConwayDRepIncorrectDeposit
  | 3 => some .ConwayCommitteeHasPreviouslyResigned
  | 4 => some .ConwayDRepIncorrectRefund
  | 5 => some .ConwayCommitteeIsUnknown
  | _ => none

/-- Mirror of `enum ConwayGovPredicateFailureTag`. -/
inductive ConwayGovPredicateFailureTag where
  | GovActionsDoNotExist
  | MalformedProposal
  | ProposalProcedureNetworkIdMismatch
  | TreasuryWithdrawalsNetworkIdMismatch
  | ProposalDepositIncorrect
  | DisallowedVoters
  | ConflictingCommitteeUpdate
  | ExpirationEpochTooSmall
  | InvalidPrevGovActionId
  | VotingOnExpiredGovAction
  | ProposalCantFollow
  | InvalidPolicyHash
  | DisallowedProposalDuringBootstrap
  | DisallowedVotesDuringBootstrap
  | VotersDoNotExist
  | ZeroTreasuryWithdrawals
  | ProposalReturnAccountDoesNotExist
  | TreasuryWithdrawalReturnAccountsDoNotExist
  | UnelectedCommitteeVoters
deriving DecidableEq

/-- Mirror of `TryFrom<u64> for ConwayGovPredicateFailureTag`. -/
def ConwayGovPredicateFailureTag.tryFrom :
    Nat → Option ConwayGovPredicateFailureTag
  | 0 => some .GovActionsDoNotExist
  | 1 => some .MalformedProposal
  | 2 => some .ProposalProcedureNetworkIdMismatch
  | 3 => some .TreasuryWithdrawalsNetworkIdMismatch
  | 4 => some .ProposalDepositIncorrect
  | 5 => some .DisallowedVoters
  | 6 => some .ConflictingCommitteeUpdate
  | 7 => some .ExpirationEpochTooSmall
  | 8 => some .InvalidPrevGovActionId
  | 9 => some .VotingOnExpiredGovAction
  | 10 => some .ProposalCantFollow
  | 11 => some .InvalidPolicyHash
  | 12 => some .DisallowedProposalDuringBootstrap
  | 13 => some .DisallowedVotesDuringBootstrap
  | 14 => some .VotersDoNotExist
  | 15 => some .ZeroTreasuryWithdrawals
  | 16 => some .ProposalReturnAccountDoesNotExist
  | 17 => some .TreasuryWithdrawalReturnAccountsDoNotExist
  | 18 => some .UnelectedCommitteeVoters
  | _ => none

/-- Mirror of `enum ConwayUtxosPredicateFailure`. -/
inductive ConwayUtxosPredicateFailure where
  | ValidationTagMismatch (tag : Term) (description : Term)
  | CollectErrors (errors : Term)
  | Other (sum : TaggedSum)

/-- Mirror of `enum ConwayGovCertPredicateFailure`. -/
inductive ConwayGovCertPredicateFailure where
  | ConwayDRepAlreadyRegistered (credential : Term)
  | ConwayDRepNotRegistered (credential : Term)
  | ConwayDRepIncorrectDeposit (mismatch : Term)
  | ConwayCommitteeHasPreviouslyResigned (cold_credential : Term)
  | ConwayDRepIncorrectRefund (mismatch : Term)
  | ConwayCommitteeIsUnknown (cold_credential : Term)
  | Other (sum : TaggedSum)

/-- Mirror of `enum ConwayGovPredicateFailure`. -/
inductive ConwayGovPredicateFailure where
  | GovActionsDoNotExist (missing : Term)
  | MalformedProposal (proposal : Term)
  | ProposalProcedureNetworkIdMismatch (reward_account : Term) (expected_network : Term)
  | TreasuryWithdrawalsNetworkIdMismatch (offending_accounts : Term) (expected_network : Term)
  | ProposalDepositIncorrect (mismatch : Term)
  | DisallowedVoters (voters : Term)
  | ConflictingCommitteeUpdate (members : Term)
  | ExpirationEpochTooSmall (expired : Term)
  | InvalidPrevGovActionId (proposal : Term)
  | VotingOnExpiredGovAction (votes : Term)
  | ProposalCantFollow (previous : Term) (version_mismatch : Term)
  | InvalidPolicyHash (provided : Term) (expected : Term)
  | DisallowedProposalDuringBootstrap (proposal : Term)
  | DisallowedVotesDuringBootstrap (votes : Term)
  | VotersDoNotExist (voters : Term)
  | ZeroTreasuryWithdrawals (action : Term)
  | ProposalReturnAccountDoesNotExist (reward_account : Term)
  | TreasuryWithdrawalReturnAccountsDoNotExist (reward_accounts : Term)
  | UnelectedCommitteeVoters (voters : Term)
  | Other (sum : TaggedSum)

/-- Mirror of `enum ConwayDelegPredicateFailure`. -/
inductive ConwayDelegPredicateFailure where
  | IncorrectDeposit (deposit : Term)
  | StakeKeyRegistered (stake_credential : Term)
  | StakeKeyNotRegistered (stake_credential : Term)
  | StakeKeyHasNonZeroRewardAccountBalance (balance : Term)
  | DelegateeDRepNotRegistered (delegatee : Term)
  | DelegateeStakePoolNotRegistered (delegatee : List Nat)
  | DepositIncorrect (mismatch : Term)
  | RefundIncorrect (mismatch : Term)
  | Other (sum : TaggedSum)

/-- Mirror of `enum ConwayCertPredicateFailure` (the `Box` indirection is
irrelevant in Lean). -/
inductive ConwayCertPredicateFailure where
  | DelegFailure (child : ConwayDelegPredicateFailure)
  | PoolFailure (failure : Term)
  | GovCertFailure (child : ConwayGovCertPredicateFailure)
  | Other (sum : TaggedSum)

/-- Mirror of `enum ConwayCertsPredicateFailure`. -/
inductive ConwayCertsPredicateFailure where
  | WithdrawalsNotInRewardsCERTS (withdrawals : Term)
  | CertFailure (child : ConwayCertPredicateFailure)
  | Other (sum : TaggedSum)

/-- Mirror of `enum ConwayUtxoPredicateFailure`. -/
inductive ConwayUtxoPredicateFailure where
  | UtxosFailure (child : ConwayUtxosPredicateFailure)
  | BadInputsUTxO (invalid_inputs : Term)
  | OutsideValidityIntervalUTxO (validity_interval : Term) (current_slot : Term)
  | MaxTxSizeUTxO (size_mismatch : Term)
  | InputSetEmptyUTxO
  | FeeTooSmallUTxO (fee_mismatch : Term)
  | ValueNotConservedUTxO (balance_mismatch : Term)
  | WrongNetwork (expected : Term) (offending : Term)
  | WrongNetworkWithdrawal (expected : Term) (offending : Term)
  | OutputTooSmallUTxO (tiny_outputs : Term)
  | OutputBootAddrAttrsTooBig (oversized_bootstrap_outputs : Term)
  | OutputTooBigUTxO (outputs : Term)
  | InsufficientCollateral (provided : Term) (required : Term)
  | ScriptsNotPaidUTxO (unpaid : Term)
  | ExUnitsTooBigUTxO (limit_mismatch : Term)
  | CollateralContainsNonADA (offending_value : Term)
  | WrongNetworkInTxBody (mismatch : Term)
  | OutsideForecast (slot : Term)
  | TooManyCollateralInputs (bound : Term)
  | NoCollateralInputs
  | IncorrectTotalCollateralField (provided : Term) (declared : Term)
  | BabbageOutputTooSmallUTxO (outputs : Term)
  | BabbageNonDisjointRefInputs (overlapping : Term)
  | Other (sum : TaggedSum)

/-- Mirror of `enum ConwayUtxowPredicateFailure`. -/
inductive ConwayUtxowPredicateFailure where
  | UtxoFailure (child : ConwayUtxoPredicateFailure)
  | InvalidWitnessesUTXOW (witnesses : Term)
  | MissingVKeyWitnessesUTXOW (missing : Term)
  | MissingScriptWitnessesUTXOW (missing : Term)
  | ScriptWitnessNotValidatingUTXOW (failing : Term)
  | MissingTxBodyMetadataHash (expected : Term)
  | MissingTxMetadata (expected : Term)
  | ConflictingMetadataHash (mismatch : Term)
  | InvalidMetadata
  | ExtraneousScriptWitnessesUTXOW (extraneous : Term)
  | MissingRedeemers (missing : Term)
  | MissingRequiredDatums (missing_hashes : Term) (provided_hashes : Term)
  | NotAllowedSupplementalDatums (disallowed_hashes : Term) (allowed : Term)
  | PPViewHashesDontMatch (mismatch : Term)
  | UnspendableUTxONoDatumHash (inputs : Term)
  | ExtraRedeemers (extra : Term)
  | MalformedScriptWitnesses (scripts : Term)
  | MalformedReferenceScripts (scripts : Term)
  | ScriptIntegrityHashMismatch (mismatch : Term) (provided : Term)
  | Other (sum : TaggedSum)

/-- Mirror of `enum ConwayLedgerPredicateFailure`. -/
inductive ConwayLedgerPredicateFailure where
  | UtxowFailure (child : ConwayUtxowPredicateFailure)
  | CertsFailure (child : ConwayCertsPredicateFailure)
  | GovFailure (child : ConwayGovPredicateFailure)
  | WdrlNotDelegatedToDRep (withdrawals : Term)
  | TreasuryValueMismatch (mismatch : Term)
  | TxRefScriptsSizeTooBig (size_mismatch : Term)
  | MempoolFailure (reason : Term)
  | WithdrawalsMissingAccounts (withdrawals : Term)
  | IncompleteWithdrawals (withdrawals : Term)
  | Other (sum : TaggedSum)

/-- Mirror of `expect_fields`: fail with `Malformed(context)` unless the
field list has exactly the expected length, in which case it is returned
unchanged. -/
def expect_fields (fields : List Term) (expected : Nat) (context : String) :
    Except ParseError (List Term) :=
  if fields.length ≠ expected then .error (.Malformed context)
  else .ok fields

/-- Mirror of `expect_single_field`: check the arity is 1 and consume the
single field (the empty branch is unreachable after `expect_fields`). -/
def expect_single_field (fields : List Term) (context : String) :
    Except ParseError Term := do
  let fs ← expect_fields fields 1 context
  match fs with
  | f :: _ => pure f
  | [] => throw (.Malformed context)

/-- Mirror of `expect_two_fields`: check the arity is 2 and consume the two
fields in order (the short branches are unreachable after `expect_fields`). -/
def expect_two_fields (fields : List Term) (context : String) :
    Except ParseError (Term × Term) := do
  let fs ← expect_fields fields 2 context
  match fs with
  | f1 :: f2 :: _ => pure (f1, f2)
  | _ => throw (.Malformed context)

/-- Mirror of `expect_no_fields`: succeed exactly on an empty field list. -/
def expect_no_fields (fields : List Term) (context : String) :
    Except ParseError Unit :=
  if fields.isEmpty then .ok ()
  else .error (.Malformed context)

/-- Mirror of `extract_bytes`: peel single-element arrays and semantic tags
until a byte string is found, otherwise fail. -/
def extract_bytes : Term → Except ParseError (List Nat)
  | .Bytes bytes => .ok bytes
  | .Array [item] => extract_bytes item
  | .Tagged _ boxed => extract_bytes boxed
  | _ => .error (.Malformed "expected byte string payload")

/-- Mirror of `parse_conway_utxos_failure`. -/
def parse_conway_utxos_failure (term : Term) :
    Except ParseError ConwayUtxosPredicateFailure :=
  match TaggedSum.from_term term with
  | none => .error (.Malformed "utxos predicate failure must be a tagged sum")
  | some sum =>
    match ConwayUtxosPredicateFailureTag.tryFrom sum.tag with
    | some .ValidationTagMismatch => do
      let (tag, description) ←
        expect_two_fields sum.fields "ValidationTagMismatch expects tag/description"
      pure (.ValidationTagMismatch tag description)
    | some .CollectErrors => do
      let errors ← expect_single_field sum.fields "CollectErrors expects payload"
      pure (.CollectErrors errors)
    | none => pure (.Other sum)

/-- Mirror of `parse_conway_gov_cert_failure`. -/
def parse_conway_gov_cert_failure (term : Term) :
    Except ParseError ConwayGovCertPredicateFailure :=
  match TaggedSum.from_term term with
  | none => .error (.Malformed "gov cert predicate failure must be a tagged sum")
  | some sum =>
    match ConwayGovCertPredicateFailureTag.tryFrom sum.tag with
    | some .ConwayDRepAlreadyRegistered => do
      let credential ←
        expect_single_field sum.fields "ConwayDRepAlreadyRegistered expects credential"
      pure (.ConwayDRepAlreadyRegistered credential)
    | some .ConwayDRepNotRegistered => do
      let credential ←
        expect_single_field sum.fields "ConwayDRepNotRegistered expects credential"
      pure (.ConwayDRepNotRegistered credential)
    | some .ConwayDRepIncorrectDeposit => do
      let mismatch ←
        expect_single_field sum.fields "ConwayDRepIncorrectDeposit expects mismatch"
      pure (.ConwayDRepIncorrectDeposit mismatch)
    | some .ConwayCommitteeHasPreviouslyResigned => do
      let cold_credential ←
        expect_single_field sum.fields
          "ConwayCommitteeHasPreviouslyResigned expects credential"
      pure (.ConwayCommitteeHasPreviouslyResigned cold_credential)
    | some .ConwayDRepIncorrectRefund => do
      let mismatch ←
        expect_single_field sum.fields "ConwayDRepIncorrectRefund expects mismatch"
      pure (.ConwayDRepIncorrectRefund mismatch)
    | some .ConwayCommitteeIsUnknown => do
      let cold_credential ←
        expect_single_field sum.fields "ConwayCommitteeIsUnknown expects credential"
      pure (.ConwayCommitteeIsUnknown cold_credential)
    | none => pure (.Other sum)

/-- Mirror of `parse_conway_gov_failure`. -/
def parse_conway_gov_failure (term : Term) :
    Except ParseError ConwayGovPredicateFailure :=
  match TaggedSum.from_term term with
  | none => .error (.Malformed "gov predicate failure must be a tagged sum")
  | some sum =>
    match ConwayGovPredicateFailureTag.tryFrom sum.tag with
    | some .GovActionsDoNotExist => do
      let missing ←
        expect_single_field sum.fields "GovActionsDoNotExist expects missing payload"
      pure (.GovActionsDoNotExist missing)
    | some .MalformedProposal => do
      let proposal ←
        expect_single_field sum.fields "MalformedProposal expects proposal payload"
      pure (.MalformedProposal proposal)
    | some .ProposalProcedureNetworkIdMismatch => do
      let (reward_account, expected_network) ←
        expect_two_fields sum.fields
          "ProposalProcedureNetworkIdMismatch expects two payloads"
      pure (.ProposalProcedureNetworkIdMismatch reward_account expected_network)
    | some .TreasuryWithdrawalsNetworkIdMismatch => do
      let (offending_accounts, expected_network) ←
        expect_two_fields sum.fields
          "TreasuryWithdrawalsNetworkIdMismatch expects two payloads"
      pure (.TreasuryWithdrawalsNetworkIdMismatch offending_accounts expected_network)
    | some .ProposalDepositIncorrect => do
      let mismatch ←
        expect_single_field sum.fields "ProposalDepositIncorrect expects mismatch payload"
      pure (.ProposalDepositIncorrect mismatch)
    | some .DisallowedVoters => do
      let voters ← expect_single_field sum.fields "DisallowedVoters expects payload"
      pure (.DisallowedVoters voters)
    | some .ConflictingCommitteeUpdate => do
      let members ←
        expect_single_field sum.fields "ConflictingCommitteeUpdate expects payload"
      pure (.ConflictingCommitteeUpdate members)
    | some .ExpirationEpochTooSmall => do
      let expired ←
        expect_single_field sum.fields "ExpirationEpochTooSmall expects payload"
      pure (.ExpirationEpochTooSmall expired)
    | some .InvalidPrevGovActionId => do
      let proposal ←
        expect_single_field sum.fields "InvalidPrevGovActionId expects proposal payload"
      pure (.InvalidPrevGovActionId proposal)
    | some .VotingOnExpiredGovAction => do
      let votes ←
        expect_single_field sum.fields "VotingOnExpiredGovAction expects payload"
      pure (.VotingOnExpiredGovAction votes)
    | some .ProposalCantFollow => do
      let (previous, version_mismatch) ←
        expect_two_fields sum.fields "ProposalCantFollow expects two payloads"
      pure (.ProposalCantFollow previous version_mismatch)
    | some .InvalidPolicyHash => do
      let (provided, expected) ←
        expect_two_fields sum.fields "InvalidPolicyHash expects two payloads"
      pure (.InvalidPolicyHash provided expected)
    | some .DisallowedProposalDuringBootstrap => do
      let proposal ←
        expect_single_field sum.fields "DisallowedProposalDuringBootstrap expects proposal"
      pure (.DisallowedProposalDuringBootstrap proposal)
    | some .DisallowedVotesDuringBootstrap => do
      let votes ←
        expect_single_field sum.fields "DisallowedVotesDuringBootstrap expects votes"
      pure (.DisallowedVotesDuringBootstrap votes)
    | some .VotersDoNotExist => do
      let voters ← expect_single_field sum.fields "VotersDoNotExist expects payload"
      pure (.VotersDoNotExist voters)
    | some .ZeroTreasuryWithdrawals => do
      let action ← expect_single_field sum.fields "ZeroTreasuryWithdrawals expects action"
      pure (.ZeroTreasuryWithdrawals action)
    | some .ProposalReturnAccountDoesNotExist => do
      let reward_account ←
        expect_single_field sum.fields
          "ProposalReturnAccountDoesNotExist expects reward account"
      pure (.ProposalReturnAccountDoesNotExist reward_account)
    | some .TreasuryWithdrawalReturnAccountsDoNotExist => do
      let reward_accounts ←
        expect_single_field sum.fields
          "TreasuryWithdrawalReturnAccountsDoNotExist expects accounts"
      pure (.TreasuryWithdrawalReturnAccountsDoNotExist reward_accounts)
    | some .UnelectedCommitteeVoters => do
      let voters ←
        expect_single_field sum.fields "UnelectedCommitteeVoters expects payload"
      pure (.UnelectedCommitteeVoters voters)
    | none => pure (.Other sum)

/-- Mirror of `parse_conway_deleg_failure`. -/
def parse_conway_deleg_failure (term : Term) :
    Except ParseError ConwayDelegPredicateFailure :=
  match TaggedSum.from_term term with
  | none => .error (.Malformed "deleg predicate failure must be a tagged sum")
  | some sum =>
    match ConwayDelegPredicateFailureTag.tryFrom sum.tag with
    | some .IncorrectDepositDELEG => do
      let deposit ←
        expect_single_field sum.fields "IncorrectDeposit expects a deposit payload"
      pure (.IncorrectDeposit deposit)
    | some .StakeKeyRegisteredDELEG => do
      let stake_credential ←
        expect_single_field sum.fields "StakeKeyRegistered expects a credential payload"
      pure (.StakeKeyRegistered stake_credential)
    | some .StakeKeyNotRegisteredDELEG => do
      let stake_credential ←
        expect_single_field sum.fields "StakeKeyNotRegistered expects a credential payload"
      pure (.StakeKeyNotRegistered stake_credential)
    | some .StakeKeyHasNonZeroRewardAccountBalanceDELEG => do
      let balance ←
        expect_single_field sum.fields
          "StakeKeyHasNonZeroRewardAccountBalance expects a balance"
      pure (.StakeKeyHasNonZeroRewardAccountBalance balance)
    | some .DelegateeDRepNotRegisteredDELEG => do
      let delegatee ←
        expect_single_field sum.fields "DelegateeDRepNotRegistered expects a credential"
      pure (.DelegateeDRepNotRegistered delegatee)
    | some .DelegateeStakePoolNotRegisteredDELEG => do
      let delegatee_term ←
        expect_single_field sum.fields "DelegateeStakePoolNotRegistered expects one argument"
      let delegatee ← extract_bytes delegatee_term
      pure (.DelegateeStakePoolNotRegistered delegatee)
    | some .DepositIncorrectDELEG => do
      let mismatch ←
        expect_single_field sum.fields "DepositIncorrect expects mismatch payload"
      pure (.DepositIncorrect mismatch)
    | some .RefundIncorrectDELEG => do
      let mismatch ←
        expect_single_field sum.fields "RefundIncorrect expects mismatch payload"
      pure (.RefundIncorrect mismatch)
    | none => pure (.Other sum)

/-- Mirror of `parse_conway_cert_failure`. -/
def parse_conway_cert_failure (term : Term) :
    Except ParseError ConwayCertPredicateFailure :=
  match TaggedSum.from_term term with
  | none => .error (.Malformed "certificate predicate failure must be a tagged sum")
  | some sum =>
    match ConwayCertPredicateFailureTag.tryFrom sum.tag with
    | some .DelegFailure => do
      let child ← expect_single_field sum.fields "DelegFailure expects a single payload"
      let deleg ← parse_conway_deleg_failure child
      pure (.DelegFailure deleg)
    | some .PoolFailure => do
      let failure ← expect_single_field sum.fields "PoolFailure expects a single payload"
      pure (.PoolFailure failure)
    | some .GovCertFailure => do
      let child ← expect_single_field sum.fields "GovCertFailure expects a single payload"
      let gov ← parse_conway_gov_cert_failure child
      pure (.GovCertFailure gov)
    | none => pure (.Other sum)

/-- Mirror of `parse_conway_certs_failure`. -/
def parse_conway_certs_failure (term : Term) :
    Except ParseError ConwayCertsPredicateFailure :=
  match TaggedSum.from_term term with
  | none => .error (.Malformed "certs predicate failure must be a tagged sum")
  | some sum =>
    match ConwayCertsPredicateFailureTag.tryFrom sum.tag with
    | some .WithdrawalsNotInRewardsCERTS => do
      let withdrawals ←
        expect_single_field sum.fields
          "WithdrawalsNotInRewardsCERTS expects withdrawals payload"
      pure (.WithdrawalsNotInRewardsCERTS withdrawals)
    | some .CertFailure => do
      let child ← expect_single_field sum.fields "CertFailure expects a single payload"
      let cert ← parse_conway_cert_failure child
      pure (.CertFailure cert)
    | none => pure (.Other sum)

/-- Mirror of `parse_conway_utxos_failure` caller `parse_conway_utxo_failure`. -/
def parse_conway_utxo_failure (term : Term) :
    Except ParseError ConwayUtxoPredicateFailure :=
  match TaggedSum.from_term term with
  | none => .error (.Malformed "utxo predicate failure must be a tagged sum")
  | some sum =>
    match ConwayUtxoPredicateFailureTag.tryFrom sum.tag with
    | some .UtxosFailure => do
      let child ← expect_single_field sum.fields "UtxosFailure expects a single payload"
      let utxos ← parse_conway_utxos_failure child
      pure (.UtxosFailure utxos)
    | some .BadInputsUTxO => do
      let invalid_inputs ←
        expect_single_field sum.fields "BadInputsUTxO expects invalid inputs payload"
      pure (.BadInputsUTxO invalid_inputs)
    | some .OutsideValidityIntervalUTxO => do
      let (validity_interval, current_slot) ←
        expect_two_fields sum.fields "OutsideValidityIntervalUTxO expects interval and slot"
      pure (.OutsideValidityIntervalUTxO validity_interval current_slot)
    | some .MaxTxSizeUTxO => do
      let size_mismatch ←
        expect_single_field sum.fields "MaxTxSizeUTxO expects mismatch payload"
      pure (.MaxTxSizeUTxO size_mismatch)
    | some .InputSetEmptyUTxO => do
      expect_no_fields sum.fields "InputSetEmptyUTxO carries no payload"
      pure .InputSetEmptyUTxO
    | some .FeeTooSmallUTxO => do
      let fee_mismatch ←
        expect_single_field sum.fields "FeeTooSmallUTxO expects mismatch payload"
      pure (.FeeTooSmallUTxO fee_mismatch)
    | some .ValueNotConservedUTxO => do
      let balance_mismatch ←
        expect_single_field sum.fields "ValueNotConservedUTxO expects mismatch payload"
      pure (.ValueNotConservedUTxO balance_mismatch)
    | some .WrongNetwork => do
      let (expected, offending) ←
        expect_two_fields sum.fields "WrongNetwork expects expected/offending payloads"
      pure (.WrongNetwork expected offending)
    | some .WrongNetworkWithdrawal => do
      let (expected, offending) ←
        expect_two_fields sum.fields
          "WrongNetworkWithdrawal expects expected/offending payloads"
      pure (.WrongNetworkWithdrawal expected offending)
    | some .OutputTooSmallUTxO => do
      let tiny_outputs ←
        expect_single_field sum.fields "OutputTooSmallUTxO expects outputs payload"
      pure (.OutputTooSmallUTxO tiny_outputs)
    | some .OutputBootAddrAttrsTooBig => do
      let oversized_bootstrap_outputs ←
        expect_single_field sum.fields "OutputBootAddrAttrsTooBig expects outputs payload"
      pure (.OutputBootAddrAttrsTooBig oversized_bootstrap_outputs)
    | some .OutputTooBigUTxO => do
      let outputs ← expect_single_field sum.fields "OutputTooBigUTxO expects payload"
      pure (.OutputTooBigUTxO outputs)
    | some .InsufficientCollateral => do
      let (provided, required) ←
        expect_two_fields sum.fields "InsufficientCollateral expects provided/required"
      pure (.InsufficientCollateral provided required)
    | some .ScriptsNotPaidUTxO => do
      let unpaid ← expect_single_field sum.fields "ScriptsNotPaidUTxO expects payload"
      pure (.ScriptsNotPaidUTxO unpaid)
    | some .ExUnitsTooBigUTxO => do
      let limit_mismatch ←
        expect_single_field sum.fields "ExUnitsTooBigUTxO expects mismatch payload"
      pure (.ExUnitsTooBigUTxO limit_mismatch)
    | some .CollateralContainsNonADA => do
      let offending_value ←
        expect_single_field sum.fields "CollateralContainsNonADA expects payload"
      pure (.CollateralContainsNonADA offending_value)
    | some .WrongNetworkInTxBody => do
      let mismatch ←
        expect_single_field sum.fields "WrongNetworkInTxBody expects mismatch payload"
      pure (.WrongNetworkInTxBody mismatch)
    | some .OutsideForecast => do
      let slot ← expect_single_field sum.fields "OutsideForecast expects slot payload"
      pure (.OutsideForecast slot)
    | some .TooManyCollateralInputs => do
      let bound ←
        expect_single_field sum.fields "TooManyCollateralInputs expects bound payload"
      pure (.TooManyCollateralInputs bound)
    | some .NoCollateralInputs => do
      expect_no_fields sum.fields "NoCollateralInputs carries no payload"
      pure .NoCollateralInputs
    | some .IncorrectTotalCollateralField => do
      let (provided, declared) ←
        expect_two_fields sum.fields "IncorrectTotalCollateralField expects provided/declared"
      pure (.IncorrectTotalCollateralField provided declared)
    | some .BabbageOutputTooSmallUTxO => do
      let outputs ←
        expect_single_field sum.fields "BabbageOutputTooSmallUTxO expects payload"
      pure (.BabbageOutputTooSmallUTxO outputs)
    | some .BabbageNonDisjointRefInputs => do
      let overlapping ←
        expect_single_field sum.fields "BabbageNonDisjointRefInputs expects payload"
      pure (.BabbageNonDisjointRefInputs overlapping)
    | none => pure (.Other sum)

/-- Mirror of `parse_conway_utxow_failure`. -/
def parse_conway_utxow_failure (term : Term) :
    Except ParseError ConwayUtxowPredicateFailure :=
  match TaggedSum.from_term term with
  | none => .error (.Malformed "utxow predicate failure must be a tagged sum")
  | some sum =>
    match ConwayUtxowPredicateFailureTag.tryFrom sum.tag with
    | some .UtxoFailure => do
      let child ← expect_single_field sum.fields "UtxoFailure expects a single payload"
      let utxo ← parse_conway_utxo_failure child
      pure (.UtxoFailure utxo)
    | some .InvalidWitnessesUTXOW => do
      let witnesses ←
        expect_single_field sum.fields "InvalidWitnessesUTXOW expects witness payload"
      pure (.InvalidWitnessesUTXOW witnesses)
    | some .MissingVKeyWitnessesUTXOW => do
      let missing ←
        expect_single_field sum.fields "MissingVKeyWitnessesUTXOW expects missing payload"
      pure (.MissingVKeyWitnessesUTXOW missing)
    | some .MissingScriptWitnessesUTXOW => do
      let missing ←
        expect_single_field sum.fields "MissingScriptWitnessesUTXOW expects missing payload"
      pure (.MissingScriptWitnessesUTXOW missing)
    | some .ScriptWitnessNotValidatingUTXOW => do
      let failing ←
        expect_single_field sum.fields
          "ScriptWitnessNotValidatingUTXOW expects failing payload"
      pure (.ScriptWitnessNotValidatingUTXOW failing)
    | some .MissingTxBodyMetadataHash => do
      let expected ←
        expect_single_field sum.fields "MissingTxBodyMetadataHash expects expected hash"
      pure (.MissingTxBodyMetadataHash expected)
    | some .MissingTxMetadata => do
      let expected ←
        expect_single_field sum.fields "MissingTxMetadata expects expected hash"
      pure (.MissingTxMetadata expected)
    | some .ConflictingMetadataHash => do
      let mismatch ←
        expect_single_field sum.fields "ConflictingMetadataHash expects mismatch payload"
      pure (.ConflictingMetadataHash mismatch)
    | some .InvalidMetadata => do
      expect_no_fields sum.fields "InvalidMetadata carries no payload"
      pure .InvalidMetadata
    | some .ExtraneousScriptWitnessesUTXOW => do
      let extraneous ←
        expect_single_field sum.fields "ExtraneousScriptWitnessesUTXOW expects payload"
      pure (.ExtraneousScriptWitnessesUTXOW extraneous)
    | some .MissingRedeemers => do
      let missing ← expect_single_field sum.fields "MissingRedeemers expects payload"
      pure (.MissingRedeemers missing)
    | some .MissingRequiredDatums => do
      let (missing_hashes, provided_hashes) ←
        expect_two_fields sum.fields "MissingRequiredDatums expects two payloads"
      pure (.MissingRequiredDatums missing_hashes provided_hashes)
    | some .NotAllowedSupplementalDatums => do
      let (disallowed_hashes, allowed) ←
        expect_two_fields sum.fields "NotAllowedSupplementalDatums expects two payloads"
      pure (.NotAllowedSupplementalDatums disallowed_hashes allowed)
    | some .PPViewHashesDontMatch => do
      let mismatch ←
        expect_single_field sum.fields "PPViewHashesDontMatch expects mismatch payload"
      pure (.PPViewHashesDontMatch mismatch)
    | some .UnspendableUTxONoDatumHash => do
      let inputs ←
        expect_single_field sum.fields "UnspendableUTxONoDatumHash expects input set"
      pure (.UnspendableUTxONoDatumHash inputs)
    | some .ExtraRedeemers => do
      let extra ← expect_single_field sum.fields "ExtraRedeemers expects payload"
      pure (.ExtraRedeemers extra)
    | some .MalformedScriptWitnesses => do
      let scripts ←
        expect_single_field sum.fields "MalformedScriptWitnesses expects payload"
      pure (.MalformedScriptWitnesses scripts)
    | some .MalformedReferenceScripts => do
      let scripts ←
        expect_single_field sum.fields "MalformedReferenceScripts expects payload"
      pure (.MalformedReferenceScripts scripts)
    | some .ScriptIntegrityHashMismatch => do
      let (mismatch, provided) ←
        expect_two_fields sum.fields "ScriptIntegrityHashMismatch expects two payloads"
      pure (.ScriptIntegrityHashMismatch mismatch provided)
    | none => pure (.Other sum)

/-- Mirror of `parse_conway_ledger_failure`. -/
def parse_conway_ledger_failure (term : Term) :
    Except ParseError ConwayLedgerPredicateFailure :=
  match TaggedSum.from_term term with
  | none => .error (.Malformed "ledger predicate failure node must be a tagged sum")
  | some sum =>
    match ConwayLedgerPredicateFailureTag.tryFrom sum.tag with
    | some .ConwayUtxowFailure => do
      let field ←
        expect_single_field sum.fields "ConwayUtxowFailure expects a single payload"
      let utxow ← parse_conway_utxow_failure field
      pure (.UtxowFailure utxow)
    | some .ConwayCertsFailure => do
      let child ←
        expect_single_field sum.fields "ConwayCertsFailure expects a single payload"
      let certs ← parse_conway_certs_failure child
      pure (.CertsFailure certs)
    | some .ConwayGovFailure => do
      let child ←
        expect_single_field sum.fields "ConwayGovFailure expects a single payload"
      let gov ← parse_conway_gov_failure child
      pure (.GovFailure gov)
    | some .ConwayWdrlNotDelegatedToDRep => do
      let withdrawals ←
        expect_single_field sum.fields "ConwayWdrlNotDelegatedToDRep expects withdrawals"
      pure (.WdrlNotDelegatedToDRep withdrawals)
    | some .ConwayTreasuryValueMismatch => do
      let mismatch ←
        expect_single_field sum.fields "ConwayTreasuryValueMismatch expects mismatch payload"
      pure (.TreasuryValueMismatch mismatch)
    | some .ConwayTxRefScriptsSizeTooBig => do
      let size_mismatch ←
        expect_single_field sum.fields
          "ConwayTxRefScriptsSizeTooBig expects mismatch payload"
      pure (.TxRefScriptsSizeTooBig size_mismatch)
    | some .ConwayMempoolFailure => do
      let reason ←
        expect_single_field sum.fields "ConwayMempoolFailure expects reason payload"
      pure (.MempoolFailure reason)
    | some .ConwayWithdrawalsMissingAccounts => do
      let withdrawals ←
        expect_single_field sum.fields
          "ConwayWithdrawalsMissingAccounts expects withdrawals"
      pure (.WithdrawalsMissingAccounts withdrawals)
    | some .ConwayIncompleteWithdrawals => do
      let withdrawals ←
        expect_single_field sum.fields "ConwayIncompleteWithdrawals expects withdrawals"
      pure (.IncompleteWithdrawals withdrawals)
    | none => pure (.Other sum)

/-- Mirror of `decode_conway_ledger_failures` after the CBOR byte stage:
unwrap the two-element `[context_tag, body]` envelope, require the body to
be an array, and decode each element; collecting through `mapM` aborts at
the first failing element, exactly as Rust's `collect` over `Result`. -/
def decode_conway_ledger_failures (term : Term) :
    Except ParseError (List ConwayLedgerPredicateFailure) := do
  let body ←
    match term with
    | .Array [_, second] => pure second
    | _ =>
      throw (ParseError.Malformed "expected [tag, body] predicate failure message")
  let failures ←
    match body with
    | .Array elements => pure elements
    | _ => throw (ParseError.Malformed "predicate failure body must be an array")
  failures.mapM parse_conway_ledger_failure

/-- Declared field arity of each constructor handled by `parse_conway_ledger_failure`
(the `n` of its `expect_fields`-style check in the source). -/
def ConwayLedgerPredicateFailureTag.arity : ConwayLedgerPredicateFailureTag → Nat
  | .ConwayUtxowFailure => 1
  | .ConwayCertsFailure => 1
  | .ConwayGovFailure => 1
  | .ConwayWdrlNotDelegatedToDRep => 1
  | .ConwayTreasuryValueMismatch => 1
  | .ConwayTxRefScriptsSizeTooBig => 1
  | .ConwayMempoolFailure => 1
  | .ConwayWithdrawalsMissingAccounts => 1
  | .ConwayIncompleteWithdrawals => 1

/-- Static context string reported by `parse_conway_ledger_failure` when the
constructor for this tag receives the wrong number of fields. -/
def ConwayLedgerPredicateFailureTag.context : ConwayLedgerPredicateFailureTag → String
  | .ConwayUtxowFailure => "ConwayUtxowFailure expects a single payload"
  | .ConwayCertsFailure => "ConwayCertsFailure expects a single payload"
  | .ConwayGovFailure => "ConwayGovFailure expects a single payload"
  | .ConwayWdrlNotDelegatedToDRep => "ConwayWdrlNotDelegatedToDRep expects withdrawals"
  | .ConwayTreasuryValueMismatch => "ConwayTreasuryValueMismatch expects mismatch payload"
  | .ConwayTxRefScriptsSizeTooBig => "ConwayTxRefScriptsSizeTooBig expects mismatch payload"
  | .ConwayMempoolFailure => "ConwayMempoolFailure expects reason payload"
  | .ConwayWithdrawalsMissingAccounts => "ConwayWithdrawalsMissingAccounts expects withdrawals"
  | .ConwayIncompleteWithdrawals => "ConwayIncompleteWithdrawals expects withdrawals"

/-- Declared field arity of each constructor handled by `parse_conway_utxow_failure`
(the `n` of its `expect_fields`-style check in the source). -/
def ConwayUtxowPredicateFailureTag.arity : ConwayUtxowPredicateFailureTag → Nat
  | .UtxoFailure => 1
  | .InvalidWitnessesUTXOW => 1
  | .MissingVKeyWitnessesUTXOW => 1
  | .MissingScriptWitnessesUTXOW => 1
  | .ScriptWitnessNotValidatingUTXOW => 1
  | .MissingTxBodyMetadataHash => 1
  | .MissingTxMetadata => 1
  | .ConflictingMetadataHash => 1
  | .InvalidMetadata => 0
  | .ExtraneousScriptWitnessesUTXOW => 1
  | .MissingRedeemers => 1
  | .MissingRequiredDatums => 2
  | .NotAllowedSupplementalDatums => 2
  | .PPViewHashesDontMatch => 1
  | .UnspendableUTxONoDatumHash => 1
  | .ExtraRedeemers => 1
  | .MalformedScriptWitnesses => 1
  | .MalformedReferenceScripts => 1
  | .ScriptIntegrityHashMismatch => 2

/-- Static context string reported by `parse_conway_utxow_failure` when the
constructor for this tag receives the wrong number of fields. -/
def ConwayUtxowPredicateFailureTag.context : ConwayUtxowPredicateFailureTag → String
  | .UtxoFailure => "UtxoFailure expects a single payload"
  | .InvalidWitnessesUTXOW => "InvalidWitnessesUTXOW expects witness payload"
  | .MissingVKeyWitnessesUTXOW => "MissingVKeyWitnessesUTXOW expects missing payload"
  | .MissingScriptWitnessesUTXOW => "MissingScriptWitnessesUTXOW expects missing payload"
  | .ScriptWitnessNotValidatingUTXOW => "ScriptWitnessNotValidatingUTXOW expects failing payload"
  | .MissingTxBodyMetadataHash => "MissingTxBodyMetadataHash expects expected hash"
  | .MissingTxMetadata => "MissingTxMetadata expects expected hash"
  | .ConflictingMetadataHash => "ConflictingMetadataHash expects mismatch payload"
  | .InvalidMetadata => "InvalidMetadata carries no payload"
  | .ExtraneousScriptWitnessesUTXOW => "ExtraneousScriptWitnessesUTXOW expects payload"
  | .MissingRedeemers => "MissingRedeemers expects payload"
  | .MissingRequiredDatums => "MissingRequiredDatums expects two payloads"
  | .NotAllowedSupplementalDatums => "NotAllowedSupplementalDatums expects two payloads"
  | .PPViewHashesDontMatch => "PPViewHashesDontMatch expects mismatch payload"
  | .UnspendableUTxONoDatumHash => "UnspendableUTxONoDatumHash expects input set"
  | .ExtraRedeemers => "ExtraRedeemers expects payload"
  | .MalformedScriptWitnesses => "MalformedScriptWitnesses expects payload"
  | .MalformedReferenceScripts => "MalformedReferenceScripts expects payload"
  | .ScriptIntegrityHashMismatch => "ScriptIntegrityHashMismatch expects two payloads"

/-- Declared field arity of each constructor handled by `parse_conway_utxo_failure`
(the `n` of its `expect_fields`-style check in the source). -/
def ConwayUtxoPredicateFailureTag.arity : ConwayUtxoPredicateFailureTag → Nat
  | .UtxosFailure => 1
  | .BadInputsUTxO => 1
  | .OutsideValidityIntervalUTxO => 2
  | .MaxTxSizeUTxO => 1
  | .InputSetEmptyUTxO => 0
  | .FeeTooSmallUTxO => 1
  | .ValueNotConservedUTxO => 1
  | .WrongNetwork => 2
  | .WrongNetworkWithdrawal => 2
  | .OutputTooSmallUTxO => 1
  | .OutputBootAddrAttrsTooBig => 1
  | .OutputTooBigUTxO => 1
  | .InsufficientCollateral => 2
  | .ScriptsNotPaidUTxO => 1
  | .ExUnitsTooBigUTxO => 1
  | .CollateralContainsNonADA => 1
  | .WrongNetworkInTxBody => 1
  | .OutsideForecast => 1
  | .TooManyCollateralInputs => 1
  | .NoCollateralInputs => 0
  | .IncorrectTotalCollateralField => 2
  | .BabbageOutputTooSmallUTxO => 1
  | .BabbageNonDisjointRefInputs => 1

/-- Static context string reported by `parse_conway_utxo_failure` when the
constructor for this tag receives the wrong number of fields. -/
def ConwayUtxoPredicateFailureTag.context : ConwayUtxoPredicateFailureTag → String
  | .UtxosFailure => "UtxosFailure expects a single payload"
  | .BadInputsUTxO => "BadInputsUTxO expects invalid inputs payload"
  | .OutsideValidityIntervalUTxO => "OutsideValidityIntervalUTxO expects interval and slot"
  | .MaxTxSizeUTxO => "MaxTxSizeUTxO expects mismatch payload"
  | .InputSetEmptyUTxO => "InputSetEmptyUTxO carries no payload"
  | .FeeTooSmallUTxO => "FeeTooSmallUTxO expects mismatch payload"
  | .ValueNotConservedUTxO => "ValueNotConservedUTxO expects mismatch payload"
  | .WrongNetwork => "WrongNetwork expects expected/offending payloads"
  | .WrongNetworkWithdrawal => "WrongNetworkWithdrawal expects expected/offending payloads"
  | .OutputTooSmallUTxO => "OutputTooSmallUTxO expects outputs payload"
  | .OutputBootAddrAttrsTooBig => "OutputBootAddrAttrsTooBig expects outputs payload"
  | .OutputTooBigUTxO => "OutputTooBigUTxO expects payload"
  | .InsufficientCollateral => "InsufficientCollateral expects provided/required"
  | .ScriptsNotPaidUTxO => "ScriptsNotPaidUTxO expects payload"
  | .ExUnitsTooBigUTxO => "ExUnitsTooBigUTxO expects mismatch payload"
  | .CollateralContainsNonADA => "CollateralContainsNonADA expects payload"
  | .WrongNetworkInTxBody => "WrongNetworkInTxBody expects mismatch payload"
  | .OutsideForecast => "OutsideForecast expects slot payload"
  | .TooManyCollateralInputs => "TooManyCollateralInputs expects bound payload"
  | .NoCollateralInputs => "NoCollateralInputs carries no payload"
  | .IncorrectTotalCollateralField => "IncorrectTotalCollateralField expects provided/declared"
  | .BabbageOutputTooSmallUTxO => "BabbageOutputTooSmallUTxO expects payload"
  | .BabbageNonDisjointRefInputs => "BabbageNonDisjointRefInputs expects payload"

/-- Declared field arity of each constructor handled by `parse_conway_utxos_failure`
(the `n` of its `expect_fields`-style check in the source). -/
def ConwayUtxosPredicateFailureTag.arity : ConwayUtxosPredicateFailureTag → Nat
  | .ValidationTagMismatch => 2
  | .CollectErrors => 1

/-- Static context string reported by `parse_conway_utxos_failure` when the
constructor for this tag receives the wrong number of fields. -/
def ConwayUtxosPredicateFailureTag.context : ConwayUtxosPredicateFailureTag → String
  | .ValidationTagMismatch => "ValidationTagMismatch expects tag/description"
  | .CollectErrors => "CollectErrors expects payload"

/-- Declared field arity of each constructor handled by `parse_conway_certs_failure`
(the `n` of its `expect_fields`-style check in the source). -/
def ConwayCertsPredicateFailureTag.arity : ConwayCertsPredicateFailureTag → Nat
  | .WithdrawalsNotInRewardsCERTS => 1
  | .CertFailure => 1

/-- Static context string reported by `parse_conway_certs_failure` when the
constructor for this tag receives the wrong number of fields. -/
def ConwayCertsPredicateFailureTag.context : ConwayCertsPredicateFailureTag → String
  | .WithdrawalsNotInRewardsCERTS => "WithdrawalsNotInRewardsCERTS expects withdrawals payload"
  | .CertFailure => "CertFailure expects a single payload"

/-- Declared field arity of each constructor handled by `parse_conway_cert_failure`
(the `n` of its `expect_fields`-style check in the source). -/
def ConwayCertPredicateFailureTag.arity : ConwayCertPredicateFailureTag → Nat
  | .DelegFailure => 1
  | .PoolFailure => 1
  | .GovCertFailure => 1

/-- Static context string reported by `parse_conway_cert_failure` when the
constructor for this tag receives the wrong number of fields. -/
def ConwayCertPredicateFailureTag.context : ConwayCertPredicateFailureTag → String
  | .DelegFailure => "DelegFailure expects a single payload"
  | .PoolFailure => "PoolFailure expects a single payload"
  | .GovCertFailure => "GovCertFailure expects a single payload"

/-- Declared field arity of each constructor handled by `parse_conway_deleg_failure`
(the `n` of its `expect_fields`-style check in the source). -/
def ConwayDelegPredicateFailureTag.arity : ConwayDelegPredicateFailureTag → Nat
  | .IncorrectDepositDELEG => 1
  | .StakeKeyRegisteredDELEG => 1
  | .StakeKeyNotRegisteredDELEG => 1
  | .StakeKeyHasNonZeroRewardAccountBalanceDELEG => 1
  | .DelegateeDRepNotRegisteredDELEG => 1
  | .DelegateeStakePoolNotRegisteredDELEG => 1
  | .DepositIncorrectDELEG => 1
  | .RefundIncorrectDELEG => 1

/-- Static context string reported by `parse_conway_deleg_failure` when the
constructor for this tag receives the wrong number of fields. -/
def ConwayDelegPredicateFailureTag.context : ConwayDelegPredicateFailureTag → String
  | .IncorrectDepositDELEG => "IncorrectDeposit expects a deposit payload"
  | .StakeKeyRegisteredDELEG => "StakeKeyRegistered expects a credential payload"
  | .StakeKeyNotRegisteredDELEG => "StakeKeyNotRegistered expects a credential payload"
  | .StakeKeyHasNonZeroRewardAccountBalanceDELEG => "StakeKeyHasNonZeroRewardAccountBalance expects a balance"
  | .DelegateeDRepNotRegisteredDELEG => "DelegateeDRepNotRegistered expects a credential"
  | .DelegateeStakePoolNotRegisteredDELEG => "DelegateeStakePoolNotRegistered expects one argument"
  | .DepositIncorrectDELEG => "DepositIncorrect expects mismatch payload"
  | .RefundIncorrectDELEG => "RefundIncorrect expects mismatch payload"

/-- Declared field arity of each constructor handled by `parse_conway_gov_cert_failure`
(the `n` of its `expect_fields`-style check in the source). -/
def ConwayGovCertPredicateFailureTag.arity : ConwayGovCertPredicateFailureTag → Nat
  | .ConwayDRepAlreadyRegistered => 1
  | .ConwayDRepNotRegistered => 1
  | .ConwayDRepIncorrectDeposit => 1
  | .ConwayCommitteeHasPreviouslyResigned => 1
  | .ConwayDRepIncorrectRefund => 1
  | .ConwayCommitteeIsUnknown => 1

/-- Static context string reported by `parse_conway_gov_cert_failure` when the
constructor for this tag receives the wrong number of fields. -/
def ConwayGovCertPredicateFailureTag.context : ConwayGovCertPredicateFailureTag → String
  | .ConwayDRepAlreadyRegistered => "ConwayDRepAlreadyRegistered expects credential"
  | .ConwayDRepNotRegistered => "ConwayDRepNotRegistered expects credential"
  | .ConwayDRepIncorrectDeposit => "ConwayDRepIncorrectDeposit expects mismatch"
  | .ConwayCommitteeHasPreviouslyResigned => "ConwayCommitteeHasPreviouslyResigned expects credential"
  | .ConwayDRepIncorrectRefund => "ConwayDRepIncorrectRefund expects mismatch"
  | .ConwayCommitteeIsUnknown => "ConwayCommitteeIsUnknown expects credential"

/-- Declared field arity of each constructor handled by `parse_conway_gov_failure`
(the `n` of its `expect_fields`-style check in the source). -/
def ConwayGovPredicateFailureTag.arity : ConwayGovPredicateFailureTag → Nat
  | .GovActionsDoNotExist => 1
  | .MalformedProposal => 1
  | .ProposalProcedureNetworkIdMismatch => 2
  | .TreasuryWithdrawalsNetworkIdMismatch => 2
  | .ProposalDepositIncorrect => 1
  | .DisallowedVoters => 1
  | .ConflictingCommitteeUpdate => 1
  | .ExpirationEpochTooSmall => 1
  | .InvalidPrevGovActionId => 1
  | .VotingOnExpiredGovAction => 1
  | .ProposalCantFollow => 2
  | .InvalidPolicyHash => 2
  | .DisallowedProposalDuringBootstrap => 1
  | .DisallowedVotesDuringBootstrap => 1
  | .VotersDoNotExist => 1
  | .ZeroTreasuryWithdrawals => 1
  | .ProposalReturnAccountDoesNotExist => 1
  | .TreasuryWithdrawalReturnAccountsDoNotExist => 1
  | .UnelectedCommitteeVoters => 1

/-- Static context string reported by `parse_conway_gov_failure` when the
constructor for this tag receives the wrong number of fields. -/
def ConwayGovPredicateFailureTag.context : ConwayGovPredicateFailureTag → String
  | .GovActionsDoNotExist => "GovActionsDoNotExist expects missing payload"
  | .MalformedProposal => "MalformedProposal expects proposal payload"
  | .ProposalProcedureNetworkIdMismatch => "ProposalProcedureNetworkIdMismatch expects two payloads"
  | .TreasuryWithdrawalsNetworkIdMismatch => "TreasuryWithdrawalsNetworkIdMismatch expects two payloads"
  | .ProposalDepositIncorrect => "ProposalDepositIncorrect expects mismatch payload"
  | .DisallowedVoters => "DisallowedVoters expects payload"
  | .ConflictingCommitteeUpdate => "ConflictingCommitteeUpdate expects payload"
  | .ExpirationEpochTooSmall => "ExpirationEpochTooSmall expects payload"
  | .InvalidPrevGovActionId => "InvalidPrevGovActionId expects proposal payload"
  | .VotingOnExpiredGovAction => "VotingOnExpiredGovAction expects payload"
  | .ProposalCantFollow => "ProposalCantFollow expects two payloads"
  | .InvalidPolicyHash => "InvalidPolicyHash expects two payloads"
  | .DisallowedProposalDuringBootstrap => "DisallowedProposalDuringBootstrap expects proposal"
  | .DisallowedVotesDuringBootstrap => "DisallowedVotesDuringBootstrap expects votes"
  | .VotersDoNotExist => "VotersDoNotExist expects payload"
  | .ZeroTreasuryWithdrawals => "ZeroTreasuryWithdrawals expects action"
  | .ProposalReturnAccountDoesNotExist => "ProposalReturnAccountDoesNotExist expects reward account"
  | .TreasuryWithdrawalReturnAccountsDoNotExist => "TreasuryWithdrawalReturnAccountsDoNotExist expects accounts"
  | .UnelectedCommitteeVoters => "UnelectedCommitteeVoters expects payload"

/-- Fuel-indexed evaluator for `extract_bytes`, mirroring its loop one peel
per step; `none` means the fuel ran out before the loop finished. -/
def extract_bytes_fuel : Nat → Term → Option (Except ParseError (List Nat))
  | 0, _ => none
  | fuel + 1, t =>
    match t with
    | .Bytes bytes => some (.ok bytes)
    | .Array [item] => extract_bytes_fuel fuel item
    | .Tagged _ boxed => extract_bytes_fuel fuel boxed
    | _ => some (.error (.Malformed "expected byte string payload"))

/-- Fuel-indexed evaluator for `TaggedTree::from_term`, one recursion level
per unit of fuel; `none` means the fuel ran out. -/
def from_term_fuel : Nat → Term → Option TaggedTree
  | 0, _ => none
  | fuel + 1, t =>
    match TaggedSum.from_term t with
    | some sum => (sum.fields.mapM (from_term_fuel fuel)).map (TaggedTree.Sum sum)
    | none => some (.Leaf t)



/-! ### Supporting lemmas -/

theorem exceptBindOk {α β : Type} (a : α) (f : α → Except ParseError β) :
    (Except.ok a : Except ParseError α) >>= f = f a := rfl

theorem exceptBindErr {α β : Type} (e : ParseError) (f : α → Except ParseError β) :
    (Except.error e : Except ParseError α) >>= f = .error e := rfl

theorem exceptMapOk {α β : Type} (a : α) (f : α → β) :
    f <$> (Except.ok a : Except ParseError α) = .ok (f a) := rfl

theorem exceptMapErr {α β : Type} (e : ParseError) (f : α → β) :
    f <$> (Except.error e : Except ParseError α) = .error e := rfl

theorem exceptPureOk {α : Type} (a : α) :
    (pure a : Except ParseError α) = .ok a := rfl

theorem expect_single_field_singleton (f : Term) (c : String) :
    expect_single_field [f] c = .ok f := rfl

theorem expect_two_fields_pair (f1 f2 : Term) (c : String) :
    expect_two_fields [f1, f2] c = .ok (f1, f2) := rfl

theorem expect_no_fields_nil (c : String) : expect_no_fields [] c = .ok () := rfl

theorem expect_single_field_err {fields : List Term} (c : String)
    (h : fields.length ≠ 1) :
    expect_single_field fields c = .error (.Malformed c) := by
  simp [expect_single_field, expect_fields, h, exceptBindErr]

theorem expect_two_fields_err {fields : List Term} (c : String)
    (h : fields.length ≠ 2) :
    expect_two_fields fields c = .error (.Malformed c) := by
  simp [expect_two_fields, expect_fields, h, exceptBindErr]

theorem expect_no_fields_err {fields : List Term} (c : String)
    (h : fields.length ≠ 0) :
    expect_no_fields fields c = .error (.Malformed c) := by
  cases fields with
  | nil => simp at h
  | cons a l => rfl

theorem TaggedTree.from_term_eq (t : Term) :
    TaggedTree.from_term t =
      match TaggedSum.from_term t with
      | some sum => .Sum sum (sum.fields.map TaggedTree.from_term)
      | none => .Leaf t := by
  rw [TaggedTree.from_term]
  cases h : TaggedSum.from_term t with
  | none => rfl
  | some sum => simp [List.attach_map_val]

theorem mapM_ok_of_forall2 {α β : Type} (f : α → Except ParseError β)
    {l : List α} {rs : List β}
    (h : List.Forall₂ (fun a r => f a = .ok r) l rs) :
    l.mapM f = .ok rs := by
  induction h with
  | nil => rfl
  | cons ha _ ih =>
    rename_i a r l2 rs2
    rw [List.mapM_cons, ha, ih]
    rfl

theorem mapM_append_err {α β : Type} (f : α → Except ParseError β)
    {pre : List α} {x : α} (post : List α) {e : ParseError}
    (hpre : ∀ p ∈ pre, ∃ v, f p = .ok v) (hx : f x = .error e) :
    (pre ++ x :: post).mapM f = .error e := by
  induction pre with
  | nil =>
    rw [List.nil_append, List.mapM_cons, hx]
    rfl
  | cons p ps ih =>
    obtain ⟨v, hv⟩ := hpre p (List.mem_cons_self p ps)
    rw [List.cons_append, List.mapM_cons, hv]
    rw [ih fun q hq => hpre q (List.mem_cons_of_mem p hq)]
    rfl

theorem mapM_some_of_forall {α β : Type} (f : α → Option β) (g : α → β)
    {l : List α} (h : ∀ x ∈ l, f x = some (g x)) :
    l.mapM f = some (l.map g) := by
  induction l with
  | nil => rfl
  | cons a l2 ih =>
    rw [List.mapM_cons, h a (List.mem_cons_self a l2)]
    rw [ih fun x hx => h x (List.mem_cons_of_mem a hx)]
    rfl

theorem sizeOf_term_pos (t : Term) : 0 < sizeOf t := by
  cases t <;> simp

theorem extract_bytes_fuel_spec :
    ∀ (fuel : Nat) (t : Term), sizeOf t ≤ fuel →
      extract_bytes_fuel fuel t = some (extract_bytes t) := by
  intro fuel
  induction fuel with
  | zero =>
    intro t ht
    have := sizeOf_term_pos t
    omega
  | succ n ih =>
    intro t ht
    match t with
    | .Bytes bytes => rfl
    | .Array [item] =>
      have hs : sizeOf item ≤ n := by
        simp only [Term.Array.sizeOf_spec, List.cons.sizeOf_spec,
          List.nil.sizeOf_spec] at ht
        omega
      simp only [extract_bytes_fuel, extract_bytes]
      exact ih item hs
    | .Tagged tag boxed =>
      have hs : sizeOf boxed ≤ n := by
        simp only [Term.Tagged.sizeOf_spec] at ht
        omega
      simp only [extract_bytes_fuel, extract_bytes]
      exact ih boxed hs
    | .Integer i => rfl
    | .Text str => rfl
    | .Bool b => rfl
    | .Float bits => rfl
    | .Null => rfl
    | .Array [] => rfl
    | .Array (a :: b :: rest) => rfl
    | .Map entries => rfl

theorem from_term_fuel_spec :
    ∀ (fuel : Nat) (t : Term), sizeOf t ≤ fuel →
      from_term_fuel fuel t = some (TaggedTree.from_term t) := by
  intro fuel
  induction fuel with
  | zero =>
    intro t ht
    have := sizeOf_term_pos t
    omega
  | succ n ih =>
    intro t ht
    rw [from_term_fuel, TaggedTree.from_term_eq]
    cases h : TaggedSum.from_term t with
    | none => rfl
    | some sum =>
      have hall : ∀ f ∈ sum.fields, from_term_fuel n f =
          some (TaggedTree.from_term f) := by
        intro f hf
        have := sizeOf_lt_of_from_term h hf
        exact ih f (by omega)
      show (sum.fields.mapM (from_term_fuel n)).map (TaggedTree.Sum sum) =
        some (TaggedTree.Sum sum (sum.fields.map TaggedTree.from_term))
      rw [mapM_some_of_forall _ _ hall]
      rfl


theorem parse_conway_ledger_failure_arity_mismatch (t : Term) (sum : TaggedSum)
    (tg : ConwayLedgerPredicateFailureTag)
    (h : TaggedSum.from_term t = some sum)
    (htag : ConwayLedgerPredicateFailureTag.tryFrom sum.tag = some tg)
    (hlen : sum.fields.length ≠ tg.arity) :
    parse_conway_ledger_failure t = .error (.Malformed tg.context) := by
  cases tg <;>
    simp_all [parse_conway_ledger_failure, ConwayLedgerPredicateFailureTag.arity,
      ConwayLedgerPredicateFailureTag.context, expect_single_field_err,
      expect_two_fields_err, expect_no_fields_err, exceptBindErr]

theorem parse_conway_utxow_failure_arity_mismatch (t : Term) (sum : TaggedSum)
    (tg : ConwayUtxowPredicateFailureTag)
    (h : TaggedSum.from_term t = some sum)
    (htag : ConwayUtxowPredicateFailureTag.tryFrom sum.tag = some tg)
    (hlen : sum.fields.length ≠ tg.arity) :
    parse_conway_utxow_failure t = .error (.Malformed tg.context) := by
  cases tg <;>
    simp_all [parse_conway_utxow_failure, ConwayUtxowPredicateFailureTag.arity,
      ConwayUtxowPredicateFailureTag.context, expect_single_field_err,
      expect_two_fields_err, expect_no_fields_err, exceptBindErr]

theorem parse_conway_utxo_failure_arity_mismatch (t : Term) (sum : TaggedSum)
    (tg : ConwayUtxoPredicateFailureTag)
    (h : TaggedSum.from_term t = some sum)
    (htag : ConwayUtxoPredicateFailureTag.tryFrom sum.tag = some tg)
    (hlen : sum.fields.length ≠ tg.arity) :
    parse_conway_utxo_failure t = .error (.Malformed tg.context) := by
  cases tg <;>
    simp_all [parse_conway_utxo_failure, ConwayUtxoPredicateFailureTag.arity,
      ConwayUtxoPredicateFailureTag.context, expect_single_field_err,
      expect_two_fields_err, expect_no_fields_err, exceptBindErr]

theorem parse_conway_utxos_failure_arity_mismatch (t : Term) (sum : TaggedSum)
    (tg : ConwayUtxosPredicateFailureTag)
    (h : TaggedSum.from_term t = some sum)
    (htag : ConwayUtxosPredicateFailureTag.tryFrom sum.tag = some tg)
    (hlen : sum.fields.length ≠ tg.arity) :
    parse_conway_utxos_failure t = .error (.Malformed tg.context) := by
  cases tg <;>
    simp_all [parse_conway_utxos_failure, ConwayUtxosPredicateFailureTag.arity,
      ConwayUtxosPredicateFailureTag.context, expect_single_field_err,
      expect_two_fields_err, expect_no_fields_err, exceptBindErr]

theorem parse_conway_certs_failure_arity_mismatch (t : Term) (sum : TaggedSum)
    (tg : ConwayCertsPredicateFailureTag)
    (h : TaggedSum.from_term t = some sum)
    (htag : ConwayCertsPredicateFailureTag.tryFrom sum.tag = some tg)
    (hlen : sum.fields.length ≠ tg.arity) :
    parse_conway_certs_failure t = .error (.Malformed tg.context) := by
  cases tg <;>
    simp_all [parse_conway_certs_failure, ConwayCertsPredicateFailureTag.arity,
      ConwayCertsPredicateFailureTag.context, expect_single_field_err,
      expect_two_fields_err, expect_no_fields_err, exceptBindErr]

theorem parse_conway_cert_failure_arity_mismatch (t : Term) (sum : TaggedSum)
    (tg : ConwayCertPredicateFailureTag)
    (h : TaggedSum.from_term t = some sum)
    (htag : ConwayCertPredicateFailureTag.tryFrom sum.tag = some tg)
    (hlen : sum.fields.length ≠ tg.arity) :
    parse_conway_cert_failure t = .error (.Malformed tg.context) := by
  cases tg <;>
    simp_all [parse_conway_cert_failure, ConwayCertPredicateFailureTag.arity,
      ConwayCertPredicateFailureTag.context, expect_single_field_err,
      expect_two_fields_err, expect_no_fields_err, exceptBindErr]

theorem parse_conway_deleg_failure_arity_mismatch (t : Term) (sum : TaggedSum)
    (tg : ConwayDelegPredicateFailureTag)
    (h : TaggedSum.from_term t = some sum)
    (htag : ConwayDelegPredicateFailureTag.tryFrom sum.tag = some tg)
    (hlen : sum.fields.length ≠ tg.arity) :
    parse_conway_deleg_failure t = .error (.Malformed tg.context) := by
  cases tg <;>
    simp_all [parse_conway_deleg_failure, ConwayDelegPredicateFailureTag.arity,
      ConwayDelegPredicateFailureTag.context, expect_single_field_err,
      expect_two_fields_err, expect_no_fields_err, exceptBindErr]

theorem parse_conway_gov_cert_failure_arity_mismatch (t : Term) (sum : TaggedSum)
    (tg : ConwayGovCertPredicateFailureTag)
    (h : TaggedSum.from_term t = some sum)
    (htag : ConwayGovCertPredicateFailureTag.tryFrom sum.tag = some tg)
    (hlen : sum.fields.length ≠ tg.arity) :
    parse_conway_gov_cert_failure t = .error (.Malformed tg.context) := by
  cases tg <;>
    simp_all [parse_conway_gov_cert_failure, ConwayGovCertPredicateFailureTag.arity,
      ConwayGovCertPredicateFailureTag.context, expect_single_field_err,
      expect_two_fields_err, expect_no_fields_err, exceptBindErr]

theorem parse_conway_gov_failure_arity_mismatch (t : Term) (sum : TaggedSum)
    (tg : ConwayGovPredicateFailureTag)
    (h : TaggedSum.from_term t = some sum)
    (htag : ConwayGovPredicateFailureTag.tryFrom sum.tag = some tg)
    (hlen : sum.fields.length ≠ tg.arity) :
    parse_conway_gov_failure t = .error (.Malformed tg.context) := by
  cases tg <;>
    simp_all [parse_conway_gov_failure, ConwayGovPredicateFailureTag.arity,
      ConwayGovPredicateFailureTag.context, expect_single_field_err,
      expect_two_fields_err, expect_no_fields_err, exceptBindErr]



/-! ### Claim theorems -/

/-- C1: For every taxonomy-level decoder (ledger, utxow, utxo, utxos, certs,
cert, deleg, gov-cert, gov) and for every input term that recognizes as a
tagged sum whose tag is not in that level's catalogue, the decoder returns
success with the `Other` variant carrying exactly the original tag and the
original field sequence unchanged, for any field count — never an error. -/
theorem unknown_tag_yields_other (t : Term) (sum : TaggedSum)
    (h : TaggedSum.from_term t = some sum) :
    (ConwayLedgerPredicateFailureTag.tryFrom sum.tag = none →
      parse_conway_ledger_failure t = .ok (.Other sum)) ∧
    (ConwayUtxowPredicateFailureTag.tryFrom sum.tag = none →
      parse_conway_utxow_failure t = .ok (.Other sum)) ∧
    (ConwayUtxoPredicateFailureTag.tryFrom sum.tag = none →
      parse_conway_utxo_failure t = .ok (.Other sum)) ∧
    (ConwayUtxosPredicateFailureTag.tryFrom sum.tag = none →
      parse_conway_utxos_failure t = .ok (.Other sum)) ∧
    (ConwayCertsPredicateFailureTag.tryFrom sum.tag = none →
      parse_conway_certs_failure t = .ok (.Other sum)) ∧
    (ConwayCertPredicateFailureTag.tryFrom sum.tag = none →
      parse_conway_cert_failure t = .ok (.Other sum)) ∧
    (ConwayDelegPredicateFailureTag.tryFrom sum.tag = none →
      parse_conway_deleg_failure t = .ok (.Other sum)) ∧
    (ConwayGovCertPredicateFailureTag.tryFrom sum.tag = none →
      parse_conway_gov_cert_failure t = .ok (.Other sum)) ∧
    (ConwayGovPredicateFailureTag.tryFrom sum.tag = none →
      parse_conway_gov_failure t = .ok (.Other sum)) := by
  refine ⟨?_, ?_, ?_, ?_, ?_, ?_, ?_, ?_, ?_⟩ <;>
    (intro htag
     simp [parse_conway_ledger_failure, parse_conway_utxow_failure,
       parse_conway_utxo_failure, parse_conway_utxos_failure,
       parse_conway_certs_failure, parse_conway_cert_failure,
       parse_conway_deleg_failure, parse_conway_gov_cert_failure,
       parse_conway_gov_failure, h, htag, exceptPureOk])

/-- Witness for C1: the unknown tag 1000 with two fields decodes to `Other`
at every taxonomy level. -/
theorem unknown_tag_yields_other_witness :
    parse_conway_ledger_failure (.Array [.Integer 1000, .Text "x", .Null]) =
      .ok (.Other ⟨1000, [.Text "x", .Null]⟩) ∧
    parse_conway_utxow_failure (.Array [.Integer 1000, .Text "x", .Null]) =
      .ok (.Other ⟨1000, [.Text "x", .Null]⟩) ∧
    parse_conway_utxo_failure (.Array [.Integer 1000, .Text "x", .Null]) =
      .ok (.Other ⟨1000, [.Text "x", .Null]⟩) ∧
    parse_conway_utxos_failure (.Array [.Integer 1000, .Text "x", .Null]) =
      .ok (.Other ⟨1000, [.Text "x", .Null]⟩) ∧
    parse_conway_certs_failure (.Array [.Integer 1000, .Text "x", .Null]) =
      .ok (.Other ⟨1000, [.Text "x", .Null]⟩) ∧
    parse_conway_cert_failure (.Array [.Integer 1000, .Text "x", .Null]) =
      .ok (.Other ⟨1000, [.Text "x", .Null]⟩) ∧
    parse_conway_deleg_failure (.Array [.Integer 1000, .Text "x", .Null]) =
      .ok (.Other ⟨1000, [.Text "x", .Null]⟩) ∧
    parse_conway_gov_cert_failure (.Array [.Integer 1000, .Text "x", .Null]) =
      .ok (.Other ⟨1000, [.Text "x", .Null]⟩) ∧
    parse_conway_gov_failure (.Array [.Integer 1000, .Text "x", .Null]) =
      .ok (.Other ⟨1000, [.Text "x", .Null]⟩) := by
  have h := unknown_tag_yields_other (.Array [.Integer 1000, .Text "x", .Null])
    ⟨1000, [.Text "x", .Null]⟩ rfl
  exact ⟨h.1 rfl, h.2.1 rfl, h.2.2.1 rfl, h.2.2.2.1 rfl, h.2.2.2.2.1 rfl,
    h.2.2.2.2.2.1 rfl, h.2.2.2.2.2.2.1 rfl, h.2.2.2.2.2.2.2.1 rfl,
    h.2.2.2.2.2.2.2.2 rfl⟩

/-- C3: the arity helpers return the fields unchanged and in order on the
exact expected count and fail with `Malformed(context)` otherwise (never
truncating or padding), and for every tag known to a level's catalogue a
field count differing from the constructor's declared shape makes that
level's decoder fail with the static context string naming the
constructor. -/
theorem arity_enforcement :
    (∀ (fields : List Term) (n : Nat) (c : String), fields.length = n →
      expect_fields fields n c = .ok fields) ∧
    (∀ (fields : List Term) (n : Nat) (c : String), fields.length ≠ n →
      expect_fields fields n c = .error (.Malformed c)) ∧
    (∀ (f : Term) (c : String), expect_single_field [f] c = .ok f) ∧
    (∀ (fields : List Term) (c : String), fields.length ≠ 1 →
      expect_single_field fields c = .error (.Malformed c)) ∧
    (∀ (f1 f2 : Term) (c : String), expect_two_fields [f1, f2] c = .ok (f1, f2)) ∧
    (∀ (fields : List Term) (c : String), fields.length ≠ 2 →
      expect_two_fields fields c = .error (.Malformed c)) ∧
    (∀ (c : String), expect_no_fields [] c = .ok ()) ∧
    (∀ (fields : List Term) (c : String), fields.length ≠ 0 →
      expect_no_fields fields c = .error (.Malformed c)) ∧
    (∀ (t : Term) (sum : TaggedSum) (tg : ConwayLedgerPredicateFailureTag),
      TaggedSum.from_term t = some sum →
      ConwayLedgerPredicateFailureTag.tryFrom sum.tag = some tg →
      sum.fields.length ≠ tg.arity →
      parse_conway_ledger_failure t = .error (.Malformed tg.context)) ∧
    (∀ (t : Term) (sum : TaggedSum) (tg : ConwayUtxowPredicateFailureTag),
      TaggedSum.from_term t = some sum →
      ConwayUtxowPredicateFailureTag.tryFrom sum.tag = some tg →
      sum.fields.length ≠ tg.arity →
      parse_conway_utxow_failure t = .error (.Malformed tg.context)) ∧
    (∀ (t : Term) (sum : TaggedSum) (tg : ConwayUtxoPredicateFailureTag),
      TaggedSum.from_term t = some sum →
      ConwayUtxoPredicateFailureTag.tryFrom sum.tag = some tg →
      sum.fields.length ≠ tg.arity →
      parse_conway_utxo_failure t = .error (.Malformed tg.context)) ∧
    (∀ (t : Term) (sum : TaggedSum) (tg : ConwayUtxosPredicateFailureTag),
      TaggedSum.from_term t = some sum →
      ConwayUtxosPredicateFailureTag.tryFrom sum.tag = some tg →
      sum.fields.length ≠ tg.arity →
      parse_conway_utxos_failure t = .error (.Malformed tg.context)) ∧
    (∀ (t : Term) (sum : TaggedSum) (tg : ConwayCertsPredicateFailureTag),
      TaggedSum.from_term t = some sum →
      ConwayCertsPredicateFailureTag.tryFrom sum.tag = some tg →
      sum.fields.length ≠ tg.arity →
      parse_conway_certs_failure t = .error (.Malformed tg.context)) ∧
    (∀ (t : Term) (sum : TaggedSum) (tg : ConwayCertPredicateFailureTag),
      TaggedSum.from_term t = some sum →
      ConwayCertPredicateFailureTag.tryFrom sum.tag = some tg →
      sum.fields.length ≠ tg.arity →
      parse_conway_cert_failure t = .error (.Malformed tg.context)) ∧
    (∀ (t : Term) (sum : TaggedSum) (tg : ConwayDelegPredicateFailureTag),
      TaggedSum.from_term t = some sum →
      ConwayDelegPredicateFailureTag.tryFrom sum.tag = some tg →
      sum.fields.length ≠ tg.arity →
      parse_conway_deleg_failure t = .error (.Malformed tg.context)) ∧
    (∀ (t : Term) (sum : TaggedSum) (tg : ConwayGovCertPredicateFailureTag),
      TaggedSum.from_term t = some sum →
      ConwayGovCertPredicateFailureTag.tryFrom sum.tag = some tg →
      sum.fields.length ≠ tg.arity →
      parse_conway_gov_cert_failure t = .error (.Malformed tg.context)) ∧
    (∀ (t : Term) (sum : TaggedSum) (tg : ConwayGovPredicateFailureTag),
      TaggedSum.from_term t = some sum →
      ConwayGovPredicateFailureTag.tryFrom sum.tag = some tg →
      sum.fields.length ≠ tg.arity →
      parse_conway_gov_failure t = .error (.Malformed tg.context)) := by
  refine ⟨fun fields n c h => by simp [expect_fields, h],
    fun fields n c h => by simp [expect_fields, h],
    fun f c => expect_single_field_singleton f c,
    fun fields c h => expect_single_field_err c h,
    fun f1 f2 c => expect_two_fields_pair f1 f2 c,
    fun fields c h => expect_two_fields_err c h,
    fun c => expect_no_fields_nil c,
    fun fields c h => expect_no_fields_err c h,
    parse_conway_ledger_failure_arity_mismatch,
    parse_conway_utxow_failure_arity_mismatch,
    parse_conway_utxo_failure_arity_mismatch,
    parse_conway_utxos_failure_arity_mismatch,
    parse_conway_certs_failure_arity_mismatch,
    parse_conway_cert_failure_arity_mismatch,
    parse_conway_deleg_failure_arity_mismatch,
    parse_conway_gov_cert_failure_arity_mismatch,
    parse_conway_gov_failure_arity_mismatch⟩

/-- Witness for C3: concrete arity checks, including a known ledger tag (4)
given one extra field and a known deleg tag (1) given one field too few. -/
theorem arity_enforcement_witness :
    expect_fields [Term.Null] 1 "c" = .ok [Term.Null] ∧
    expect_fields [Term.Null] 2 "c" = .error (.Malformed "c") ∧
    expect_single_field [] "c" = .error (.Malformed "c") ∧
    expect_two_fields [Term.Null] "c" = .error (.Malformed "c") ∧
    expect_no_fields [Term.Null] "c" = .error (.Malformed "c") ∧
    parse_conway_ledger_failure (.Array [.Integer 4, .Null, .Null]) =
      .error (.Malformed "ConwayWdrlNotDelegatedToDRep expects withdrawals") ∧
    parse_conway_deleg_failure (.Array [.Integer 1]) =
      .error (.Malformed "IncorrectDeposit expects a deposit payload") := by
  have h := arity_enforcement
  refine ⟨h.1 [Term.Null] 1 "c" rfl, h.2.1 [Term.Null] 2 "c" (by decide),
    h.2.2.2.1 [] "c" (by decide), h.2.2.2.2.2.1 [Term.Null] "c" (by decide),
    h.2.2.2.2.2.2.2.1 [Term.Null] "c" (by decide), ?_, ?_⟩
  · have hl := h.2.2.2.2.2.2.2.2.1 (.Array [.Integer 4, .Null, .Null])
      ⟨4, [.Null, .Null]⟩ .ConwayWdrlNotDelegatedToDRep rfl rfl
      (by simp [ConwayLedgerPredicateFailureTag.arity])
    simpa [ConwayLedgerPredicateFailureTag.context] using hl
  · have hd := h.2.2.2.2.2.2.2.2.2.2.2.2.2.2.1 (.Array [.Integer 1])
      ⟨1, []⟩ .IncorrectDepositDELEG rfl rfl
      (by simp [ConwayDelegPredicateFailureTag.arity])
    simpa [ConwayDelegPredicateFailureTag.context] using hd


/-- C2: for every taxonomy level and every tag declared in that level's
catalogue, decoding a well-formed tagged sum with that tag and the correct
field count (and a well-formed child where the variant holds a nested
failure or a byte-string payload) yields the correspondingly named variant
of that level's enum — never the `Other` variant. -/
theorem known_tags_decode_to_named_variants :
    (∀ (t c : Term) (v : ConwayUtxowPredicateFailure),
      TaggedSum.from_term t = some ⟨1, [c]⟩ →
      parse_conway_utxow_failure c = .ok v →
      parse_conway_ledger_failure t = .ok (.UtxowFailure v)) ∧
    (∀ (t c : Term) (v : ConwayCertsPredicateFailure),
      TaggedSum.from_term t = some ⟨2, [c]⟩ →
      parse_conway_certs_failure c = .ok v →
      parse_conway_ledger_failure t = .ok (.CertsFailure v)) ∧
    (∀ (t c : Term) (v : ConwayGovPredicateFailure),
      TaggedSum.from_term t = some ⟨3, [c]⟩ →
      parse_conway_gov_failure c = .ok v →
      parse_conway_ledger_failure t = .ok (.GovFailure v)) ∧
    (∀ (t x : Term), TaggedSum.from_term t = some ⟨4, [x]⟩ →
      parse_conway_ledger_failure t = .ok (.WdrlNotDelegatedToDRep x)) ∧
    (∀ (t x : Term), TaggedSum.from_term t = some ⟨5, [x]⟩ →
      parse_conway_ledger_failure t = .ok (.TreasuryValueMismatch x)) ∧
    (∀ (t x : Term), TaggedSum.from_term t = some ⟨6, [x]⟩ →
      parse_conway_ledger_failure t = .ok (.TxRefScriptsSizeTooBig x)) ∧
    (∀ (t x : Term), TaggedSum.from_term t = some ⟨7, [x]⟩ →
      parse_conway_ledger_failure t = .ok (.MempoolFailure x)) ∧
    (∀ (t x : Term), TaggedSum.from_term t = some ⟨8, [x]⟩ →
      parse_conway_ledger_failure t = .ok (.WithdrawalsMissingAccounts x)) ∧
    (∀ (t x : Term), TaggedSum.from_term t = some ⟨9, [x]⟩ →
      parse_conway_ledger_failure t = .ok (.IncompleteWithdrawals x)) ∧
    (∀ (t c : Term) (v : ConwayUtxoPredicateFailure),
      TaggedSum.from_term t = some ⟨0, [c]⟩ →
      parse_conway_utxo_failure c = .ok v →
      parse_conway_utxow_failure t = .ok (.UtxoFailure v)) ∧
    (∀ (t x : Term), TaggedSum.from_term t = some ⟨1, [x]⟩ →
      parse_conway_utxow_failure t = .ok (.InvalidWitnessesUTXOW x)) ∧
    (∀ (t x : Term), TaggedSum.from_term t = some ⟨2, [x]⟩ →
      parse_conway_utxow_failure t = .ok (.MissingVKeyWitnessesUTXOW x)) ∧
    (∀ (t x : Term), TaggedSum.from_term t = some ⟨3, [x]⟩ →
      parse_conway_utxow_failure t = .ok (.MissingScriptWitnessesUTXOW x)) ∧
    (∀ (t x : Term), TaggedSum.from_term t = some ⟨4, [x]⟩ →
      parse_conway_utxow_failure t = .ok (.ScriptWitnessNotValidatingUTXOW x)) ∧
    (∀ (t x : Term), TaggedSum.from_term t = some ⟨5, [x]⟩ →
      parse_conway_utxow_failure t = .ok (.MissingTxBodyMetadataHash x)) ∧
    (∀ (t x : Term), TaggedSum.from_term t = some ⟨6, [x]⟩ →
      parse_conway_utxow_failure t = .ok (.MissingTxMetadata x)) ∧
    (∀ (t x : Term), TaggedSum.from_term t = some ⟨7, [x]⟩ →
      parse_conway_utxow_failure t = .ok (.ConflictingMetadataHash x)) ∧
    (∀ (t : Term), TaggedSum.from_term t = some ⟨8, []⟩ →
      parse_conway_utxow_failure t = .ok .InvalidMetadata) ∧
    (∀ (t x : Term), TaggedSum.from_term t = some ⟨9, [x]⟩ →
      parse_conway_utxow_failure t = .ok (.ExtraneousScriptWitnessesUTXOW x)) ∧
    (∀ (t x : Term), TaggedSum.from_term t = some ⟨10, [x]⟩ →
      parse_conway_utxow_failure t = .ok (.MissingRedeemers x)) ∧
    (∀ (t x y : Term), TaggedSum.from_term t = some ⟨11, [x, y]⟩ →
      parse_conway_utxow_failure t = .ok (.MissingRequiredDatums x y)) ∧
    (∀ (t x y : Term), TaggedSum.from_term t = some ⟨12, [x, y]⟩ →
      parse_conway_utxow_failure t = .ok (.NotAllowedSupplementalDatums x y)) ∧
    (∀ (t x : Term), TaggedSum.from_term t = some ⟨13, [x]⟩ →
      parse_conway_utxow_failure t = .ok (.PPViewHashesDontMatch x)) ∧
    (∀ (t x : Term), TaggedSum.from_term t = some ⟨14, [x]⟩ →
      parse_conway_utxow_failure t = .ok (.UnspendableUTxONoDatumHash x)) ∧
    (∀ (t x : Term), TaggedSum.from_term t = some ⟨15, [x]⟩ →
      parse_conway_utxow_failure t = .ok (.ExtraRedeemers x)) ∧
    (∀ (t x : Term), TaggedSum.from_term t = some ⟨16, [x]⟩ →
      parse_conway_utxow_failure t = .ok (.MalformedScriptWitnesses x)) ∧
    (∀ (t x : Term), TaggedSum.from_term t = some ⟨17, [x]⟩ →
      parse_conway_utxow_failure t = .ok (.MalformedReferenceScripts x)) ∧
    (∀ (t x y : Term), TaggedSum.from_term t = some ⟨18, [x, y]⟩ →
      parse_conway_utxow_failure t = .ok (.ScriptIntegrityHashMismatch x y)) ∧
    (∀ (t c : Term) (v : ConwayUtxosPredicateFailure),
      TaggedSum.from_term t = some ⟨0, [c]⟩ →
      parse_conway_utxos_failure c = .ok v →
      parse_conway_utxo_failure t = .ok (.UtxosFailure v)) ∧
    (∀ (t x : Term), TaggedSum.from_term t = some ⟨1, [x]⟩ →
      parse_conway_utxo_failure t = .ok (.BadInputsUTxO x)) ∧
    (∀ (t x y : Term), TaggedSum.from_term t = some ⟨2, [x, y]⟩ →
      parse_conway_utxo_failure t = .ok (.OutsideValidityIntervalUTxO x y)) ∧
    (∀ (t x : Term), TaggedSum.from_term t = some ⟨3, [x]⟩ →
      parse_conway_utxo_failure t = .ok (.MaxTxSizeUTxO x)) ∧
    (∀ (t : Term), TaggedSum.from_term t = some ⟨4, []⟩ →
      parse_conway_utxo_failure t = .ok .InputSetEmptyUTxO) ∧
    (∀ (t x : Term), TaggedSum.from_term t = some ⟨5, [x]⟩ →
      parse_conway_utxo_failure t = .ok (.FeeTooSmallUTxO x)) ∧
    (∀ (t x : Term), TaggedSum.from_term t = some ⟨6, [x]⟩ →
      parse_conway_utxo_failure t = .ok (.ValueNotConservedUTxO x)) ∧
    (∀ (t x y : Term), TaggedSum.from_term t = some ⟨7, [x, y]⟩ →
      parse_conway_utxo_failure t = .ok (.WrongNetwork x y)) ∧
    (∀ (t x y : Term), TaggedSum.from_term t = some ⟨8, [x, y]⟩ →
      parse_conway_utxo_failure t = .ok (.WrongNetworkWithdrawal x y)) ∧
    (∀ (t x : Term), TaggedSum.from_term t = some ⟨9, [x]⟩ →
      parse_conway_utxo_failure t = .ok (.OutputTooSmallUTxO x)) ∧
    (∀ (t x : Term), TaggedSum.from_term t = some ⟨10, [x]⟩ →
      parse_conway_utxo_failure t = .ok (.OutputBootAddrAttrsTooBig x)) ∧
    (∀ (t x : Term), TaggedSum.from_term t = some ⟨11, [x]⟩ →
      parse_conway_utxo_failure t = .ok (.OutputTooBigUTxO x)) ∧
    (∀ (t x y : Term), TaggedSum.from_term t = some ⟨12, [x, y]⟩ →
      parse_conway_utxo_failure t = .ok (.InsufficientCollateral x y)) ∧
    (∀ (t x : Term), TaggedSum.from_term t = some ⟨13, [x]⟩ →
      parse_conway_utxo_failure t = .ok (.ScriptsNotPaidUTxO x)) ∧
    (∀ (t x : Term), TaggedSum.from_term t = some ⟨14, [x]⟩ →
      parse_conway_utxo_failure t = .ok (.ExUnitsTooBigUTxO x)) ∧
    (∀ (t x : Term), TaggedSum.from_term t = some ⟨15, [x]⟩ →
      parse_conway_utxo_failure t = .ok (.CollateralContainsNonADA x)) ∧
    (∀ (t x : Term), TaggedSum.from_term t = some ⟨16, [x]⟩ →
      parse_conway_utxo_failure t = .ok (.WrongNetworkInTxBody x)) ∧
    (∀ (t x : Term), TaggedSum.from_term t = some ⟨17, [x]⟩ →
      parse_conway_utxo_failure t = .ok (.OutsideForecast x)) ∧
    (∀ (t x : Term), TaggedSum.from_term t = some ⟨18, [x]⟩ →
      parse_conway_utxo_failure t = .ok (.TooManyCollateralInputs x)) ∧
    (∀ (t : Term), TaggedSum.from_term t = some ⟨19, []⟩ →
      parse_conway_utxo_failure t = .ok .NoCollateralInputs) ∧
    (∀ (t x y : Term), TaggedSum.from_term t = some ⟨20, [x, y]⟩ →
      parse_conway_utxo_failure t = .ok (.IncorrectTotalCollateralField x y)) ∧
    (∀ (t x : Term), TaggedSum.from_term t = some ⟨21, [x]⟩ →
      parse_conway_utxo_failure t = .ok (.BabbageOutputTooSmallUTxO x)) ∧
    (∀ (t x : Term), TaggedSum.from_term t = some ⟨22, [x]⟩ →
      parse_conway_utxo_failure t = .ok (.BabbageNonDisjointRefInputs x)) ∧
    (∀ (t x y : Term), TaggedSum.from_term t = some ⟨0, [x, y]⟩ →
      parse_conway_utxos_failure t = .ok (.ValidationTagMismatch x y)) ∧
    (∀ (t x : Term), TaggedSum.from_term t = some ⟨1, [x]⟩ →
      parse_conway_utxos_failure t = .ok (.CollectErrors x)) ∧
    (∀ (t x : Term), TaggedSum.from_term t = some ⟨0, [x]⟩ →
      parse_conway_certs_failure t = .ok (.WithdrawalsNotInRewardsCERTS x)) ∧
    (∀ (t c : Term) (v : ConwayCertPredicateFailure),
      TaggedSum.from_term t = some ⟨1, [c]⟩ →
      parse_conway_cert_failure c = .ok v →
      parse_conway_certs_failure t = .ok (.CertFailure v)) ∧
    (∀ (t c : Term) (v : ConwayDelegPredicateFailure),
      TaggedSum.from_term t = some ⟨1, [c]⟩ →
      parse_conway_deleg_failure c = .ok v →
      parse_conway_cert_failure t = .ok (.DelegFailure v)) ∧
    (∀ (t x : Term), TaggedSum.from_term t = some ⟨2, [x]⟩ →
      parse_conway_cert_failure t = .ok (.PoolFailure x)) ∧
    (∀ (t c : Term) (v : ConwayGovCertPredicateFailure),
      TaggedSum.from_term t = some ⟨3, [c]⟩ →
      parse_conway_gov_cert_failure c = .ok v →
      parse_conway_cert_failure t = .ok (.GovCertFailure v)) ∧
    (∀ (t x : Term), TaggedSum.from_term t = some ⟨1, [x]⟩ →
      parse_conway_deleg_failure t = .ok (.IncorrectDeposit x)) ∧
    (∀ (t x : Term), TaggedSum.from_term t = some ⟨2, [x]⟩ →
      parse_conway_deleg_failure t = .ok (.StakeKeyRegistered x)) ∧
    (∀ (t x : Term), TaggedSum.from_term t = some ⟨3, [x]⟩ →
      parse_conway_deleg_failure t = .ok (.StakeKeyNotRegistered x)) ∧
    (∀ (t x : Term), TaggedSum.from_term t = some ⟨4, [x]⟩ →
      parse_conway_deleg_failure t = .ok (.StakeKeyHasNonZeroRewardAccountBalance x)) ∧
    (∀ (t x : Term), TaggedSum.from_term t = some ⟨5, [x]⟩ →
      parse_conway_deleg_failure t = .ok (.DelegateeDRepNotRegistered x)) ∧
    (∀ (t c : Term) (b : List Nat),
      TaggedSum.from_term t = some ⟨6, [c]⟩ →
      extract_bytes c = .ok b →
      parse_conway_deleg_failure t = .ok (.DelegateeStakePoolNotRegistered b)) ∧
    (∀ (t x : Term), TaggedSum.from_term t = some ⟨7, [x]⟩ →
      parse_conway_deleg_failure t = .ok (.DepositIncorrect x)) ∧
    (∀ (t x : Term), TaggedSum.from_term t = some ⟨8, [x]⟩ →
      parse_conway_deleg_failure t = .ok (.RefundIncorrect x)) ∧
    (∀ (t x : Term), TaggedSum.from_term t = some ⟨0, [x]⟩ →
      parse_conway_gov_cert_failure t = .ok (.ConwayDRepAlreadyRegistered x)) ∧
    (∀ (t x : Term), TaggedSum.from_term t = some ⟨1, [x]⟩ →
      parse_conway_gov_cert_failure t = .ok (.ConwayDRepNotRegistered x)) ∧
    (∀ (t x : Term), TaggedSum.from_term t = some ⟨2, [x]⟩ →
      parse_conway_gov_cert_failure t = .ok (.ConwayDRepIncorrectDeposit x)) ∧
    (∀ (t x : Term), TaggedSum.from_term t = some ⟨3, [x]⟩ →
      parse_conway_gov_cert_failure t = .ok (.ConwayCommitteeHasPreviouslyResigned x)) ∧
    (∀ (t x : Term), TaggedSum.from_term t = some ⟨4, [x]⟩ →
      parse_conway_gov_cert_failure t = .ok (.ConwayDRepIncorrectRefund x)) ∧
    (∀ (t x : Term), TaggedSum.from_term t = some ⟨5, [x]⟩ →
      parse_conway_gov_cert_failure t = .ok (.ConwayCommitteeIsUnknown x)) ∧
    (∀ (t x : Term), TaggedSum.from_term t = some ⟨0, [x]⟩ →
      parse_conway_gov_failure t = .ok (.GovActionsDoNotExist x)) ∧
    (∀ (t x : Term), TaggedSum.from_term t = some ⟨1, [x]⟩ →
      parse_conway_gov_failure t = .ok (.MalformedProposal x)) ∧
    (∀ (t x y : Term), TaggedSum.from_term t = some ⟨2, [x, y]⟩ →
      parse_conway_gov_failure t = .ok (.ProposalProcedureNetworkIdMismatch x y)) ∧
    (∀ (t x y : Term), TaggedSum.from_term t = some ⟨3, [x, y]⟩ →
      parse_conway_gov_failure t = .ok (.TreasuryWithdrawalsNetworkIdMismatch x y)) ∧
    (∀ (t x : Term), TaggedSum.from_term t = some ⟨4, [x]⟩ →
      parse_conway_gov_failure t = .ok (.ProposalDepositIncorrect x)) ∧
    (∀ (t x : Term), TaggedSum.from_term t = some ⟨5, [x]⟩ →
      parse_conway_gov_failure t = .ok (.DisallowedVoters x)) ∧
    (∀ (t x : Term), TaggedSum.from_term t = some ⟨6, [x]⟩ →
      parse_conway_gov_failure t = .ok (.ConflictingCommitteeUpdate x)) ∧
    (∀ (t x : Term), TaggedSum.from_term t = some ⟨7, [x]⟩ →
      parse_conway_gov_failure t = .ok (.ExpirationEpochTooSmall x)) ∧
    (∀ (t x : Term), TaggedSum.from_term t = some ⟨8, [x]⟩ →
      parse_conway_gov_failure t = .ok (.InvalidPrevGovActionId x)) ∧
    (∀ (t x : Term), TaggedSum.from_term t = some ⟨9, [x]⟩ →
      parse_conway_gov_failure t = .ok (.VotingOnExpiredGovAction x)) ∧
    (∀ (t x y : Term), TaggedSum.from_term t = some ⟨10, [x, y]⟩ →
      parse_conway_gov_failure t = .ok (.ProposalCantFollow x y)) ∧
    (∀ (t x y : Term), TaggedSum.from_term t = some ⟨11, [x, y]⟩ →
      parse_conway_gov_failure t = .ok (.InvalidPolicyHash x y)) ∧
    (∀ (t x : Term), TaggedSum.from_term t = some ⟨12, [x]⟩ →
      parse_conway_gov_failure t = .ok (.DisallowedProposalDuringBootstrap x)) ∧
    (∀ (t x : Term), TaggedSum.from_term t = some ⟨13, [x]⟩ →
      parse_conway_gov_failure t = .ok (.DisallowedVotesDuringBootstrap x)) ∧
    (∀ (t x : Term), TaggedSum.from_term t = some ⟨14, [x]⟩ →
      parse_conway_gov_failure t = .ok (.VotersDoNotExist x)) ∧
    (∀ (t x : Term), TaggedSum.from_term t = some ⟨15, [x]⟩ →
      parse_conway_gov_failure t = .ok (.ZeroTreasuryWithdrawals x)) ∧
    (∀ (t x : Term), TaggedSum.from_term t = some ⟨16, [x]⟩ →
      parse_conway_gov_failure t = .ok (.ProposalReturnAccountDoesNotExist x)) ∧
    (∀ (t x : Term), TaggedSum.from_term t = some ⟨17, [x]⟩ →
      parse_conway_gov_failure t = .ok (.TreasuryWithdrawalReturnAccountsDoNotExist x)) ∧
    (∀ (t x : Term), TaggedSum.from_term t = some ⟨18, [x]⟩ →
      parse_conway_gov_failure t = .ok (.UnelectedCommitteeVoters x)) := by
  exact ⟨
    (fun t c v h hc => by
      simp [parse_conway_ledger_failure, ConwayLedgerPredicateFailureTag.tryFrom, h, hc, expect_single_field_singleton,
        exceptBindOk, exceptPureOk, exceptMapOk]),
    (fun t c v h hc => by
      simp [parse_conway_ledger_failure, ConwayLedgerPredicateFailureTag.tryFrom, h, hc, expect_single_field_singleton,
        exceptBindOk, exceptPureOk, exceptMapOk]),
    (fun t c v h hc => by
      simp [parse_conway_ledger_failure, ConwayLedgerPredicateFailureTag.tryFrom, h, hc, expect_single_field_singleton,
        exceptBindOk, exceptPureOk, exceptMapOk]),
    (fun t x h => by
      simp [parse_conway_ledger_failure, ConwayLedgerPredicateFailureTag.tryFrom, h, expect_single_field_singleton,
        exceptBindOk, exceptPureOk]),
    (fun t x h => by
      simp [parse_conway_ledger_failure, ConwayLedgerPredicateFailureTag.tryFrom, h, expect_single_field_singleton,
        exceptBindOk, exceptPureOk]),
    (fun t x h => by
      simp [parse_conway_ledger_failure, ConwayLedgerPredicateFailureTag.tryFrom, h, expect_single_field_singleton,
        exceptBindOk, exceptPureOk]),
    (fun t x h => by
      simp [parse_conway_ledger_failure, ConwayLedgerPredicateFailureTag.tryFrom, h, expect_single_field_singleton,
        exceptBindOk, exceptPureOk]),
    (fun t x h => by
      simp [parse_conway_ledger_failure, ConwayLedgerPredicateFailureTag.tryFrom, h, expect_single_field_singleton,
        exceptBindOk, exceptPureOk]),
    (fun t x h => by
      simp [parse_conway_ledger_failure, ConwayLedgerPredicateFailureTag.tryFrom, h, expect_single_field_singleton,
        exceptBindOk, exceptPureOk]),
    (fun t c v h hc => by
      simp [parse_conway_utxow_failure, ConwayUtxowPredicateFailureTag.tryFrom, h, hc, expect_single_field_singleton,
        exceptBindOk, exceptPureOk, exceptMapOk]),
    (fun t x h => by
      simp [parse_conway_utxow_failure, ConwayUtxowPredicateFailureTag.tryFrom, h, expect_single_field_singleton,
        exceptBindOk, exceptPureOk]),
    (fun t x h => by
      simp [parse_conway_utxow_failure, ConwayUtxowPredicateFailureTag.tryFrom, h, expect_single_field_singleton,
        exceptBindOk, exceptPureOk]),
    (fun t x h => by
      simp [parse_conway_utxow_failure, ConwayUtxowPredicateFailureTag.tryFrom, h, expect_single_field_singleton,
        exceptBindOk, exceptPureOk]),
    (fun t x h => by
      simp [parse_conway_utxow_failure, ConwayUtxowPredicateFailureTag.tryFrom, h, expect_single_field_singleton,
        exceptBindOk, exceptPureOk]),
    (fun t x h => by
      simp [parse_conway_utxow_failure, ConwayUtxowPredicateFailureTag.tryFrom, h, expect_single_field_singleton,
        exceptBindOk, exceptPureOk]),
    (fun t x h => by
      simp [parse_conway_utxow_failure, ConwayUtxowPredicateFailureTag.tryFrom, h, expect_single_field_singleton,
        exceptBindOk, exceptPureOk]),
    (fun t x h => by
      simp [parse_conway_utxow_failure, ConwayUtxowPredicateFailureTag.tryFrom, h, expect_single_field_singleton,
        exceptBindOk, exceptPureOk]),
    (fun t h => by
      simp [parse_conway_utxow_failure, ConwayUtxowPredicateFailureTag.tryFrom, h, expect_no_fields_nil, exceptBindOk, exceptPureOk]),
    (fun t x h => by
      simp [parse_conway_utxow_failure, ConwayUtxowPredicateFailureTag.tryFrom, h, expect_single_field_singleton,
        exceptBindOk, exceptPureOk]),
    (fun t x h => by
      simp [parse_conway_utxow_failure, ConwayUtxowPredicateFailureTag.tryFrom, h, expect_single_field_singleton,
        exceptBindOk, exceptPureOk]),
    (fun t x y h => by
      simp [parse_conway_utxow_failure, ConwayUtxowPredicateFailureTag.tryFrom, h, expect_two_fields_pair,
        exceptBindOk, exceptPureOk]),
    (fun t x y h => by
      simp [parse_conway_utxow_failure, ConwayUtxowPredicateFailureTag.tryFrom, h, expect_two_fields_pair,
        exceptBindOk, exceptPureOk]),
    (fun t x h => by
      simp [parse_conway_utxow_failure, ConwayUtxowPredicateFailureTag.tryFrom, h, expect_single_field_singleton,
        exceptBindOk, exceptPureOk]),
    (fun t x h => by
      simp [parse_conway_utxow_failure, ConwayUtxowPredicateFailureTag.tryFrom, h, expect_single_field_singleton,
        exceptBindOk, exceptPureOk]),
    (fun t x h => by
      simp [parse_conway_utxow_failure, ConwayUtxowPredicateFailureTag.tryFrom, h, expect_single_field_singleton,
        exceptBindOk, exceptPureOk]),
    (fun t x h => by
      simp [parse_conway_utxow_failure, ConwayUtxowPredicateFailureTag.tryFrom, h, expect_single_field_singleton,
        exceptBindOk, exceptPureOk]),
    (fun t x h => by
      simp [parse_conway_utxow_failure, ConwayUtxowPredicateFailureTag.tryFrom, h, expect_single_field_singleton,
        exceptBindOk, exceptPureOk]),
    (fun t x y h => by
      simp [parse_conway_utxow_failure, ConwayUtxowPredicateFailureTag.tryFrom, h, expect_two_fields_pair,
        exceptBindOk, exceptPureOk]),
    (fun t c v h hc => by
      simp [parse_conway_utxo_failure, ConwayUtxoPredicateFailureTag.tryFrom, h, hc, expect_single_field_singleton,
        exceptBindOk, exceptPureOk, exceptMapOk]),
    (fun t x h => by
      simp [parse_conway_utxo_failure, ConwayUtxoPredicateFailureTag.tryFrom, h, expect_single_field_singleton,
        exceptBindOk, exceptPureOk]),
    (fun t x y h => by
      simp [parse_conway_utxo_failure, ConwayUtxoPredicateFailureTag.tryFrom, h, expect_two_fields_pair,
        exceptBindOk, exceptPureOk]),
    (fun t x h => by
      simp [parse_conway_utxo_failure, ConwayUtxoPredicateFailureTag.tryFrom, h, expect_single_field_singleton,
        exceptBindOk, exceptPureOk]),
    (fun t h => by
      simp [parse_conway_utxo_failure, ConwayUtxoPredicateFailureTag.tryFrom, h, expect_no_fields_nil, exceptBindOk, exceptPureOk]),
    (fun t x h => by
      simp [parse_conway_utxo_failure, ConwayUtxoPredicateFailureTag.tryFrom, h, expect_single_field_singleton,
        exceptBindOk, exceptPureOk]),
    (fun t x h => by
      simp [parse_conway_utxo_failure, ConwayUtxoPredicateFailureTag.tryFrom, h, expect_single_field_singleton,
        exceptBindOk, exceptPureOk]),
    (fun t x y h => by
      simp [parse_conway_utxo_failure, ConwayUtxoPredicateFailureTag.tryFrom, h, expect_two_fields_pair,
        exceptBindOk, exceptPureOk]),
    (fun t x y h => by
      simp [parse_conway_utxo_failure, ConwayUtxoPredicateFailureTag.tryFrom, h, expect_two_fields_pair,
        exceptBindOk, exceptPureOk]),
    (fun t x h => by
      simp [parse_conway_utxo_failure, ConwayUtxoPredicateFailureTag.tryFrom, h, expect_single_field_singleton,
        exceptBindOk, exceptPureOk]),
    (fun t x h => by
      simp [parse_conway_utxo_failure, ConwayUtxoPredicateFailureTag.tryFrom, h, expect_single_field_singleton,
        exceptBindOk, exceptPureOk]),
    (fun t x h => by
      simp [parse_conway_utxo_failure, ConwayUtxoPredicateFailureTag.tryFrom, h, expect_single_field_singleton,
        exceptBindOk, exceptPureOk]),
    (fun t x y h => by
      simp [parse_conway_utxo_failure, ConwayUtxoPredicateFailureTag.tryFrom, h, expect_two_fields_pair,
        exceptBindOk, exceptPureOk]),
    (fun t x h => by
      simp [parse_conway_utxo_failure, ConwayUtxoPredicateFailureTag.tryFrom, h, expect_single_field_singleton,
        exceptBindOk, exceptPureOk]),
    (fun t x h => by
      simp [parse_conway_utxo_failure, ConwayUtxoPredicateFailureTag.tryFrom, h, expect_single_field_singleton,
        exceptBindOk, exceptPureOk]),
    (fun t x h => by
      simp [parse_conway_utxo_failure, ConwayUtxoPredicateFailureTag.tryFrom, h, expect_single_field_singleton,
        exceptBindOk, exceptPureOk]),
    (fun t x h => by
      simp [parse_conway_utxo_failure, ConwayUtxoPredicateFailureTag.tryFrom, h, expect_single_field_singleton,
        exceptBindOk, exceptPureOk]),
    (fun t x h => by
      simp [parse_conway_utxo_failure, ConwayUtxoPredicateFailureTag.tryFrom, h, expect_single_field_singleton,
        exceptBindOk, exceptPureOk]),
    (fun t x h => by
      simp [parse_conway_utxo_failure, ConwayUtxoPredicateFailureTag.tryFrom, h, expect_single_field_singleton,
        exceptBindOk, exceptPureOk]),
    (fun t h => by
      simp [parse_conway_utxo_failure, ConwayUtxoPredicateFailureTag.tryFrom, h, expect_no_fields_nil, exceptBindOk, exceptPureOk]),
    (fun t x y h => by
      simp [parse_conway_utxo_failure, ConwayUtxoPredicateFailureTag.tryFrom, h, expect_two_fields_pair,
        exceptBindOk, exceptPureOk]),
    (fun t x h => by
      simp [parse_conway_utxo_failure, ConwayUtxoPredicateFailureTag.tryFrom, h, expect_single_field_singleton,
        exceptBindOk, exceptPureOk]),
    (fun t x h => by
      simp [parse_conway_utxo_failure, ConwayUtxoPredicateFailureTag.tryFrom, h, expect_single_field_singleton,
        exceptBindOk, exceptPureOk]),
    (fun t x y h => by
      simp [parse_conway_utxos_failure, ConwayUtxosPredicateFailureTag.tryFrom, h, expect_two_fields_pair,
        exceptBindOk, exceptPureOk]),
    (fun t x h => by
      simp [parse_conway_utxos_failure, ConwayUtxosPredicateFailureTag.tryFrom, h, expect_single_field_singleton,
        exceptBindOk, exceptPureOk]),
    (fun t x h => by
      simp [parse_conway_certs_failure, ConwayCertsPredicateFailureTag.tryFrom, h, expect_single_field_singleton,
        exceptBindOk, exceptPureOk]),
    (fun t c v h hc => by
      simp [parse_conway_certs_failure, ConwayCertsPredicateFailureTag.tryFrom, h, hc, expect_single_field_singleton,
        exceptBindOk, exceptPureOk, exceptMapOk]),
    (fun t c v h hc => by
      simp [parse_conway_cert_failure, ConwayCertPredicateFailureTag.tryFrom, h, hc, expect_single_field_singleton,
        exceptBindOk, exceptPureOk, exceptMapOk]),
    (fun t x h => by
      simp [parse_conway_cert_failure, ConwayCertPredicateFailureTag.tryFrom, h, expect_single_field_singleton,
        exceptBindOk, exceptPureOk]),
    (fun t c v h hc => by
      simp [parse_conway_cert_failure, ConwayCertPredicateFailureTag.tryFrom, h, hc, expect_single_field_singleton,
        exceptBindOk, exceptPureOk, exceptMapOk]),
    (fun t x h => by
      simp [parse_conway_deleg_failure, ConwayDelegPredicateFailureTag.tryFrom, h, expect_single_field_singleton,
        exceptBindOk, exceptPureOk]),
    (fun t x h => by
      simp [parse_conway_deleg_failure, ConwayDelegPredicateFailureTag.tryFrom, h, expect_single_field_singleton,
        exceptBindOk, exceptPureOk]),
    (fun t x h => by
      simp [parse_conway_deleg_failure, ConwayDelegPredicateFailureTag.tryFrom, h, expect_single_field_singleton,
        exceptBindOk, exceptPureOk]),
    (fun t x h => by
      simp [parse_conway_deleg_failure, ConwayDelegPredicateFailureTag.tryFrom, h, expect_single_field_singleton,
        exceptBindOk, exceptPureOk]),
    (fun t x h => by
      simp [parse_conway_deleg_failure, ConwayDelegPredicateFailureTag.tryFrom, h, expect_single_field_singleton,
        exceptBindOk, exceptPureOk]),
    (fun t c b h hb => by
      simp [parse_conway_deleg_failure, ConwayDelegPredicateFailureTag.tryFrom, h, hb, expect_single_field_singleton,
        exceptBindOk, exceptPureOk, exceptMapOk]),
    (fun t x h => by
      simp [parse_conway_deleg_failure, ConwayDelegPredicateFailureTag.tryFrom, h, expect_single_field_singleton,
        exceptBindOk, exceptPureOk]),
    (fun t x h => by
      simp [parse_conway_deleg_failure, ConwayDelegPredicateFailureTag.tryFrom, h, expect_single_field_singleton,
        exceptBindOk, exceptPureOk]),
    (fun t x h => by
      simp [parse_conway_gov_cert_failure, ConwayGovCertPredicateFailureTag.tryFrom, h, expect_single_field_singleton,
        exceptBindOk, exceptPureOk]),
    (fun t x h => by
      simp [parse_conway_gov_cert_failure, ConwayGovCertPredicateFailureTag.tryFrom, h, expect_single_field_singleton,
        exceptBindOk, exceptPureOk]),
    (fun t x h => by
      simp [parse_conway_gov_cert_failure, ConwayGovCertPredicateFailureTag.tryFrom, h, expect_single_field_singleton,
        exceptBindOk, exceptPureOk]),
    (fun t x h => by
      simp [parse_conway_gov_cert_failure, ConwayGovCertPredicateFailureTag.tryFrom, h, expect_single_field_singleton,
        exceptBindOk, exceptPureOk]),
    (fun t x h => by
      simp [parse_conway_gov_cert_failure, ConwayGovCertPredicateFailureTag.tryFrom, h, expect_single_field_singleton,
        exceptBindOk, exceptPureOk]),
    (fun t x h => by
      simp [parse_conway_gov_cert_failure, ConwayGovCertPredicateFailureTag.tryFrom, h, expect_single_field_singleton,
        exceptBindOk, exceptPureOk]),
    (fun t x h => by
      simp [parse_conway_gov_failure, ConwayGovPredicateFailureTag.tryFrom, h, expect_single_field_singleton,
        exceptBindOk, exceptPureOk]),
    (fun t x h => by
      simp [parse_conway_gov_failure, ConwayGovPredicateFailureTag.tryFrom, h, expect_single_field_singleton,
        exceptBindOk, exceptPureOk]),
    (fun t x y h => by
      simp [parse_conway_gov_failure, ConwayGovPredicateFailureTag.tryFrom, h, expect_two_fields_pair,
        exceptBindOk, exceptPureOk]),
    (fun t x y h => by
      simp [parse_conway_gov_failure, ConwayGovPredicateFailureTag.tryFrom, h, expect_two_fields_pair,
        exceptBindOk, exceptPureOk]),
    (fun t x h => by
      simp [parse_conway_gov_failure, ConwayGovPredicateFailureTag.tryFrom, h, expect_single_field_singleton,
        exceptBindOk, exceptPureOk]),
    (fun t x h => by
      simp [parse_conway_gov_failure, ConwayGovPredicateFailureTag.tryFrom, h, expect_single_field_singleton,
        exceptBindOk, exceptPureOk]),
    (fun t x h => by
      simp [parse_conway_gov_failure, ConwayGovPredicateFailureTag.tryFrom, h, expect_single_field_singleton,
        exceptBindOk, exceptPureOk]),
    (fun t x h => by
      simp [parse_conway_gov_failure, ConwayGovPredicateFailureTag.tryFrom, h, expect_single_field_singleton,
        exceptBindOk, exceptPureOk]),
    (fun t x h => by
      simp [parse_conway_gov_failure, ConwayGovPredicateFailureTag.tryFrom, h, expect_single_field_singleton,
        exceptBindOk, exceptPureOk]),
    (fun t x h => by
      simp [parse_conway_gov_failure, ConwayGovPredicateFailureTag.tryFrom, h, expect_single_field_singleton,
        exceptBindOk, exceptPureOk]),
    (fun t x y h => by
      simp [parse_conway_gov_failure, ConwayGovPredicateFailureTag.tryFrom, h, expect_two_fields_pair,
        exceptBindOk, exceptPureOk]),
    (fun t x y h => by
      simp [parse_conway_gov_failure, ConwayGovPredicateFailureTag.tryFrom, h, expect_two_fields_pair,
        exceptBindOk, exceptPureOk]),
    (fun t x h => by
      simp [parse_conway_gov_failure, ConwayGovPredicateFailureTag.tryFrom, h, expect_single_field_singleton,
        exceptBindOk, exceptPureOk]),
    (fun t x h => by
      simp [parse_conway_gov_failure, ConwayGovPredicateFailureTag.tryFrom, h, expect_single_field_singleton,
        exceptBindOk, exceptPureOk]),
    (fun t x h => by
      simp [parse_conway_gov_failure, ConwayGovPredicateFailureTag.tryFrom, h, expect_single_field_singleton,
        exceptBindOk, exceptPureOk]),
    (fun t x h => by
      simp [parse_conway_gov_failure, ConwayGovPredicateFailureTag.tryFrom, h, expect_single_field_singleton,
        exceptBindOk, exceptPureOk]),
    (fun t x h => by
      simp [parse_conway_gov_failure, ConwayGovPredicateFailureTag.tryFrom, h, expect_single_field_singleton,
        exceptBindOk, exceptPureOk]),
    (fun t x h => by
      simp [parse_conway_gov_failure, ConwayGovPredicateFailureTag.tryFrom, h, expect_single_field_singleton,
        exceptBindOk, exceptPureOk]),
    (fun t x h => by
      simp [parse_conway_gov_failure, ConwayGovPredicateFailureTag.tryFrom, h, expect_single_field_singleton,
        exceptBindOk, exceptPureOk])⟩


/-- Witness for C2 at concrete inputs: a leaf ledger tag (4), the
zero-arity utxow tag (8), the recursive cert tag (1) with a well-formed
deleg child, and the byte-string deleg tag (6). -/
theorem known_tags_decode_to_named_variants_witness :
    parse_conway_ledger_failure (.Array [.Integer 4, .Null]) =
      .ok (.WdrlNotDelegatedToDRep .Null) ∧
    parse_conway_utxow_failure (.Array [.Integer 8]) = .ok .InvalidMetadata ∧
    parse_conway_cert_failure (.Array [.Integer 1, .Array [.Integer 2, .Null]]) =
      .ok (.DelegFailure (.StakeKeyRegistered .Null)) ∧
    parse_conway_deleg_failure (.Array [.Integer 6, .Bytes [1, 2]]) =
      .ok (.DelegateeStakePoolNotRegistered [1, 2]) := by
  have hC2 := known_tags_decode_to_named_variants
  exact ⟨hC2.2.2.2.1 (.Array [.Integer 4, .Null]) .Null rfl,
    hC2.2.2.2.2.2.2.2.2.2.2.2.2.2.2.2.2.2.1 (.Array [.Integer 8]) rfl,
    hC2.2.2.2.2.2.2.2.2.2.2.2.2.2.2.2.2.2.2.2.2.2.2.2.2.2.2.2.2.2.2.2.2.2.2.2.2.2.2.2.2.2.2.2.2.2.2.2.2.2.2.2.2.2.2.2.1 (.Array [.Integer 1, .Array [.Integer 2, .Null]])
      (.Array [.Integer 2, .Null]) (.StakeKeyRegistered .Null) rfl rfl,
    hC2.2.2.2.2.2.2.2.2.2.2.2.2.2.2.2.2.2.2.2.2.2.2.2.2.2.2.2.2.2.2.2.2.2.2.2.2.2.2.2.2.2.2.2.2.2.2.2.2.2.2.2.2.2.2.2.2.2.2.2.2.2.2.2.1 (.Array [.Integer 6, .Bytes [1, 2]]) (.Bytes [1, 2]) [1, 2] rfl rfl⟩


/-- C4: the tagged-sum recognizer returns a sum in exactly two cases and
nothing otherwise: a non-empty array whose first element is an integer
representable as a non-negative 64-bit value (tag = that integer, fields =
the remaining elements in order), or a semantic tag wrapping an array
(tag = the semantic-tag number, fields = all wrapped elements). -/
theorem tagged_sum_recognizer_characterization (t : Term) (s : TaggedSum) :
    TaggedSum.from_term t = some s ↔
      (∃ (i : Int) (rest : List Term), t = .Array (.Integer i :: rest) ∧
        0 ≤ i ∧ i < 2 ^ 64 ∧ s = ⟨i.toNat, rest⟩) ∨
      (∃ (n : Nat) (elems : List Term), t = .Tagged n (.Array elems) ∧
        s = ⟨n, elems⟩) := by
  constructor
  · intro h
    cases t with
    | Array items =>
      cases items with
      | nil => simp [TaggedSum.from_term] at h
      | cons a rest =>
        left
        cases a with
        | Integer i =>
          refine ⟨i, rest, rfl, ?_⟩
          simp only [TaggedSum.from_term, Term.as_unsigned] at h
          by_cases hc : 0 ≤ i ∧ i < 2 ^ 64
          · rw [if_pos hc] at h
            cases h
            exact ⟨hc.1, hc.2, rfl⟩
          · rw [if_neg hc] at h
            cases h
        | Bytes b => simp [TaggedSum.from_term, Term.as_unsigned] at h
        | Text str => simp [TaggedSum.from_term, Term.as_unsigned] at h
        | Bool b => simp [TaggedSum.from_term, Term.as_unsigned] at h
        | Float bits => simp [TaggedSum.from_term, Term.as_unsigned] at h
        | Null => simp [TaggedSum.from_term, Term.as_unsigned] at h
        | Array inner => simp [TaggedSum.from_term, Term.as_unsigned] at h
        | Map entries => simp [TaggedSum.from_term, Term.as_unsigned] at h
        | Tagged n inner => simp [TaggedSum.from_term, Term.as_unsigned] at h
    | Tagged n boxed =>
      right
      cases boxed with
      | Array elems =>
        refine ⟨n, elems, rfl, ?_⟩
        simp only [TaggedSum.from_term] at h
        cases h; rfl
      | Integer i => simp [TaggedSum.from_term] at h
      | Bytes b => simp [TaggedSum.from_term] at h
      | Text str => simp [TaggedSum.from_term] at h
      | Bool b => simp [TaggedSum.from_term] at h
      | Float bits => simp [TaggedSum.from_term] at h
      | Null => simp [TaggedSum.from_term] at h
      | Map entries => simp [TaggedSum.from_term] at h
      | Tagged m inner => simp [TaggedSum.from_term] at h
    | Integer i => simp [TaggedSum.from_term] at h
    | Bytes b => simp [TaggedSum.from_term] at h
    | Text str => simp [TaggedSum.from_term] at h
    | Bool b => simp [TaggedSum.from_term] at h
    | Float bits => simp [TaggedSum.from_term] at h
    | Null => simp [TaggedSum.from_term] at h
    | Map entries => simp [TaggedSum.from_term] at h
  · intro h
    rcases h with ⟨i, rest, rfl, hnn, hlt, rfl⟩ | ⟨n, elems, rfl, rfl⟩
    · simp only [TaggedSum.from_term, Term.as_unsigned]
      rw [if_pos ⟨hnn, hlt⟩]
    · rfl

/-- C5: the top-level message whose single inner failure nests ledger-tag 2
(certs) → certs-tag 1 (cert failure) → cert-tag 1 (deleg failure) →
deleg-tag 6 (delegatee stake pool not registered) around a semantic-tag and
array wrapped 28-byte key hash decodes to exactly
`CertsFailure (CertFailure (DelegFailure (DelegateeStakePoolNotRegistered h)))`
with the embedded raw bytes. -/
theorem delegatee_stake_pool_not_registered_end_to_end :
    decode_conway_ledger_failures
      (.Array [.Integer 2, .Array [
        .Array [.Integer 2, .Array [.Integer 1, .Array [.Integer 1,
          .Array [.Integer 6, .Tagged 258 (.Array [.Bytes
            [218, 121, 167, 82, 126, 133, 110, 94, 27, 22, 83, 198, 200,
             225, 37, 95, 121, 216, 254, 56, 183, 224, 169, 123, 181, 208,
             135, 44]])]]]]]]) =
      .ok [.CertsFailure (.CertFailure (.DelegFailure
        (.DelegateeStakePoolNotRegistered
          [218, 121, 167, 82, 126, 133, 110, 94, 27, 22, 83, 198, 200,
           225, 37, 95, 121, 216, 254, 56, 183, 224, 169, 123, 181, 208,
           135, 44])))] := by rfl

/-- C6: the generic tree builder maps every term recognizing as a tagged
sum to `Sum` over the recursively built field trees in order and every
other term to `Leaf`; `decode_predicate_failure` fails with `Malformed`
when the root does not recognize as a sum, and the term for
`[5, [1], "payload"]` builds the expected two-child tree. -/
theorem tagged_tree_builder_spec :
    (∀ (t : Term) (sum : TaggedSum), TaggedSum.from_term t = some sum →
      TaggedTree.from_term t = .Sum sum (sum.fields.map TaggedTree.from_term)) ∧
    (∀ (t : Term), TaggedSum.from_term t = none →
      TaggedTree.from_term t = .Leaf t) ∧
    (∀ (root : Term), TaggedSum.from_term root = none →
      decode_predicate_failure root = .error (.Malformed "expected a tagged sum")) ∧
    decode_predicate_failure
        (.Array [.Integer 5, .Array [.Integer 1], .Text "payload"]) =
      .ok (.Sum ⟨5, [.Array [.Integer 1], .Text "payload"]⟩
        [.Sum ⟨1, []⟩ [], .Leaf (.Text "payload")]) := by
  refine ⟨?_, ?_, ?_, ?_⟩
  · intro t sum h
    rw [TaggedTree.from_term_eq, h]
  · intro t h
    rw [TaggedTree.from_term_eq, h]
  · intro root h
    simp [decode_predicate_failure, h]
  · rw [decode_predicate_failure]
    simp [TaggedTree.from_term_eq, TaggedSum.from_term, Term.as_unsigned]

/-- Witness for C6 at concrete inputs: a recognized sum builds a `Sum`
node, `Null` builds a `Leaf`, and a `Null` root is rejected. -/
theorem tagged_tree_builder_spec_witness :
    TaggedTree.from_term (.Array [.Integer 7, .Null]) =
      .Sum ⟨7, [.Null]⟩ ([Term.Null].map TaggedTree.from_term) ∧
    TaggedTree.from_term .Null = .Leaf .Null ∧
    decode_predicate_failure .Null = .error (.Malformed "expected a tagged sum") := by
  have h := tagged_tree_builder_spec
  exact ⟨h.1 (.Array [.Integer 7, .Null]) ⟨7, [.Null]⟩ rfl,
    h.2.1 .Null rfl, h.2.2.1 .Null rfl⟩

/-- C7: the top-level decoder fails with a `Malformed` structural error
unless the term is a two-element array whose second element is an array;
otherwise it decodes the inner elements independently in order, and the
first failing element aborts the whole decode with that error and no
partial results. -/
theorem ledger_failures_envelope_spec :
    (∀ (t : Term), (∀ (a b : Term), t ≠ .Array [a, b]) →
      decode_conway_ledger_failures t =
        .error (.Malformed "expected [tag, body] predicate failure message")) ∧
    (∀ (a b : Term), (∀ (elems : List Term), b ≠ .Array elems) →
      decode_conway_ledger_failures (.Array [a, b]) =
        .error (.Malformed "predicate failure body must be an array")) ∧
    (∀ (a : Term) (elems : List Term) (rs : List ConwayLedgerPredicateFailure),
      List.Forall₂ (fun e r => parse_conway_ledger_failure e = .ok r) elems rs →
      decode_conway_ledger_failures (.Array [a, .Array elems]) = .ok rs) ∧
    (∀ (a : Term) (pre : List Term) (x : Term) (post : List Term)
        (e : ParseError),
      (∀ p ∈ pre, ∃ v, parse_conway_ledger_failure p = .ok v) →
      parse_conway_ledger_failure x = .error e →
      decode_conway_ledger_failures (.Array [a, .Array (pre ++ x :: post)]) =
        .error e) := by
  refine ⟨?_, ?_, ?_, ?_⟩
  · intro t hne
    match t with
    | .Integer i => rfl
    | .Bytes b => rfl
    | .Text str => rfl
    | .Bool b => rfl
    | .Float bits => rfl
    | .Null => rfl
    | .Map entries => rfl
    | .Tagged n u => rfl
    | .Array [] => rfl
    | .Array [a] => rfl
    | .Array [a, b] => exact absurd rfl (hne a b)
    | .Array (a :: b :: c :: rest) => rfl
  · intro a b hne
    match b with
    | .Integer i => rfl
    | .Bytes bs => rfl
    | .Text str => rfl
    | .Bool bb => rfl
    | .Float bits => rfl
    | .Null => rfl
    | .Map entries => rfl
    | .Tagged n u => rfl
    | .Array elems => exact absurd rfl (hne elems)
  · intro a elems rs h
    exact mapM_ok_of_forall2 _ h
  · intro a pre x post e hpre hx
    exact mapM_append_err _ post hpre hx

/-- Witness for C7 at concrete inputs: a bare `Null` top level is a
structural error, a non-array body is a structural error, an empty body
decodes to the empty list, and a body whose only element is `Null` fails
with that element's error. -/
theorem ledger_failures_envelope_spec_witness :
    decode_conway_ledger_failures .Null =
      .error (.Malformed "expected [tag, body] predicate failure message") ∧
    decode_conway_ledger_failures (.Array [.Null, .Integer 3]) =
      .error (.Malformed "predicate failure body must be an array") ∧
    decode_conway_ledger_failures (.Array [.Null, .Array []]) = .ok [] ∧
    decode_conway_ledger_failures (.Array [.Null, .Array ([] ++ .Null :: [])]) =
      .error (.Malformed "ledger predicate failure node must be a tagged sum") := by
  have h := ledger_failures_envelope_spec
  exact ⟨h.1 .Null (fun a b hab => by simp at hab),
    h.2.1 .Null (.Integer 3) (fun elems he => by simp at he),
    h.2.2.1 .Null [] [] List.Forall₂.nil,
    h.2.2.2 .Null [] .Null [] (.Malformed
        "ledger predicate failure node must be a tagged sum")
      (fun p hp => absurd hp (List.not_mem_nil p)) rfl⟩

/-- C8: the byte-unwrap routine returns byte strings directly, is invariant
under one-element-array and semantic-tag wrapping (for every tag number),
hence identical on payloads under 0, 1 or 2 wrapping layers, and fails with
`Malformed` on every other term shape. -/
theorem extract_bytes_unwrapping_spec :
    (∀ (b : List Nat), extract_bytes (.Bytes b) = .ok b) ∧
    (∀ (u : Term), extract_bytes (.Array [u]) = extract_bytes u) ∧
    (∀ (n : Nat) (u : Term), extract_bytes (.Tagged n u) = extract_bytes u) ∧
    (∀ (b : List Nat) (n m : Nat),
      extract_bytes (.Array [.Bytes b]) = .ok b ∧
      extract_bytes (.Tagged n (.Bytes b)) = .ok b ∧
      extract_bytes (.Array [.Array [.Bytes b]]) = .ok b ∧
      extract_bytes (.Array [.Tagged n (.Bytes b)]) = .ok b ∧
      extract_bytes (.Tagged n (.Array [.Bytes b])) = .ok b ∧
      extract_bytes (.Tagged n (.Tagged m (.Bytes b))) = .ok b) ∧
    (∀ (t : Term), (∀ (b : List Nat), t ≠ .Bytes b) →
      (∀ (u : Term), t ≠ .Array [u]) → (∀ (n : Nat) (u : Term), t ≠ .Tagged n u) →
      extract_bytes t = .error (.Malformed "expected byte string payload")) := by
  refine ⟨fun b => rfl, fun u => rfl, fun n u => rfl,
    fun b n m => ⟨rfl, rfl, rfl, rfl, rfl, rfl⟩, ?_⟩
  intro t hb ha ht
  match t with
  | .Integer i => rfl
  | .Text str => rfl
  | .Bool bb => rfl
  | .Float bits => rfl
  | .Null => rfl
  | .Map entries => rfl
  | .Array [] => rfl
  | .Array (a :: b :: rest) => rfl
  | .Bytes b => exact absurd rfl (hb b)
  | .Array [u] => exact absurd rfl (ha u)
  | .Tagged n u => exact absurd rfl (ht n u)

/-- Witness for C8 at a concrete non-byte shape: `Null` fails with the
static byte-payload error. -/
theorem extract_bytes_unwrapping_spec_witness :
    extract_bytes .Null = .error (.Malformed "expected byte string payload") :=
  extract_bytes_unwrapping_spec.2.2.2.2 .Null
    (fun b hb => by simp at hb)
    (fun u hu => by simp at hu)
    (fun n u ht => by simp at ht)

theorem except_ok_or_err {α : Type} (x : Except ParseError α) :
    (∃ v, x = .ok v) ∨ (∃ e, x = .error e) := by
  cases x with
  | ok v => exact Or.inl ⟨v, rfl⟩
  | error e => exact Or.inr ⟨e, rfl⟩

/-- C9: every decode operation terminates on every finite input term: the
byte-unwrap loop and the generic tree builder finish within `sizeOf t`
steps of fuel for arbitrarily deep input, and every taxonomy-level parse
function and both top-level decoders return either a value or an error. -/
theorem decoder_totality :
    (∀ (fuel : Nat) (t : Term), sizeOf t ≤ fuel →
      extract_bytes_fuel fuel t = some (extract_bytes t)) ∧
    (∀ (fuel : Nat) (t : Term), sizeOf t ≤ fuel →
      from_term_fuel fuel t = some (TaggedTree.from_term t)) ∧
    (∀ (t : Term), (∃ v, parse_conway_ledger_failure t = .ok v) ∨
      (∃ e, parse_conway_ledger_failure t = .error e)) ∧
    (∀ (t : Term), (∃ v, parse_conway_utxow_failure t = .ok v) ∨
      (∃ e, parse_conway_utxow_failure t = .error e)) ∧
    (∀ (t : Term), (∃ v, parse_conway_utxo_failure t = .ok v) ∨
      (∃ e, parse_conway_utxo_failure t = .error e)) ∧
    (∀ (t : Term), (∃ v, parse_conway_utxos_failure t = .ok v) ∨
      (∃ e, parse_conway_utxos_failure t = .error e)) ∧
    (∀ (t : Term), (∃ v, parse_conway_certs_failure t = .ok v) ∨
      (∃ e, parse_conway_certs_failure t = .error e)) ∧
    (∀ (t : Term), (∃ v, parse_conway_cert_failure t = .ok v) ∨
      (∃ e, parse_conway_cert_failure t = .error e)) ∧
    (∀ (t : Term), (∃ v, parse_conway_deleg_failure t = .ok v) ∨
      (∃ e, parse_conway_deleg_failure t = .error e)) ∧
    (∀ (t : Term), (∃ v, parse_conway_gov_cert_failure t = .ok v) ∨
      (∃ e, parse_conway_gov_cert_failure t = .error e)) ∧
    (∀ (t : Term), (∃ v, parse_conway_gov_failure t = .ok v) ∨
      (∃ e, parse_conway_gov_failure t = .error e)) ∧
    (∀ (t : Term), (∃ v, decode_conway_ledger_failures t = .ok v) ∨
      (∃ e, decode_conway_ledger_failures t = .error e)) ∧
    (∀ (t : Term), (∃ v, decode_predicate_failure t = .ok v) ∨
      (∃ e, decode_predicate_failure t = .error e)) := by
  exact ⟨extract_bytes_fuel_spec, from_term_fuel_spec,
    fun t => except_ok_or_err _, fun t => except_ok_or_err _,
    fun t => except_ok_or_err _, fun t => except_ok_or_err _,
    fun t => except_ok_or_err _, fun t => except_ok_or_err _,
    fun t => except_ok_or_err _, fun t => except_ok_or_err _,
    fun t => except_ok_or_err _, fun t => except_ok_or_err _,
    fun t => except_ok_or_err _⟩


/-- Witness for C9: one unit of fuel suffices for the atomic term `Null`
in both fuel-indexed evaluators. -/
theorem decoder_totality_witness :
    extract_bytes_fuel 1 .Null = some (extract_bytes .Null) ∧
    from_term_fuel 1 .Null = some (TaggedTree.from_term .Null) :=
  ⟨decoder_totality.1 1 .Null (by decide),
    decoder_totality.2.1 1 .Null (by decide)⟩

/-- C10: the top-level decoder never inspects the envelope's first element:
two-element arrays differing only in their first element decode to equal
results, whatever term stands in the first position. -/
theorem envelope_tag_ignored (a1 a2 b : Term) :
    decode_conway_ledger_failures (.Array [a1, b]) =
      decode_conway_ledger_failures (.Array [a2, b]) := rfl

end ErrorParser
